import Mathlib

/-! Logical-volume provisioning (`csi/k8s/logical_volume.go`).

A shallow embedding of `LogicalVolumeService.CreateVolume`.  The Kubernetes
client the Go code talks to is an interface; here it is a record of three
state-passing functions over an arbitrary world type `σ`, and every run of
`CreateVolume` returns, next to the Go result `(volumeID, err)`, the list of
client calls it issued and the world it left behind.

`Cluster` is one concrete world: an in-memory API server whose calls can be
made to fail at any moment and whose records have their status rewritten by
an asynchronous agent.
-/

namespace K8s

/-! ## Go machine integers -/

/-- Two's-complement reading of an integer in 64 bits (Go `int64`). -/
def wrapInt64 (x : Int) : Int := (x + 2 ^ 63) % 2 ^ 64 - 2 ^ 63

/-- The Go expression `sizeGb<<30` on `int64`. -/
def shl30 (sizeGb : Int) : Int := wrapInt64 (sizeGb * 2 ^ 30)

/-! ## Errors and gRPC status -/

/-- A gRPC status code (`codes.Code`, an unsigned integer). -/
abbrev Code := Nat

namespace codes
/-- The code `codes.OK`. -/
def OK : Code := 0
/-- The code `codes.Unknown`. -/
def Unknown : Code := 2
/-- The code `codes.DeadlineExceeded`. -/
def DeadlineExceeded : Code := 4
/-- The code `codes.AlreadyExists`. -/
def AlreadyExists : Code := 6
/-- The code `codes.Internal`. -/
def Internal : Code := 13
end codes

/-- Non-nil values of the Go `error` interface that `CreateVolume` can see.
A Go `error` is an `Option Error`, with `none` for `nil`. -/
inductive Error where
  /-- A gRPC status error, as built by `status.Error` with a code other than OK. -/
  | statusError (code : Code) (message : String)
  /-- A plain error made by `errors.New`. -/
  | errorString (text : String)
  /-- An API-server status error (`apierrors.StatusError`) with its reason. -/
  | apiStatus (reason : String) (message : String)
  /-- Any other failure of the client (connection, context cancelled, ...). -/
  | transport (text : String)
  deriving DecidableEq, Repr

namespace status

/-- The gRPC function `status.Error(c, msg)`: "Error returns an error
representing c and msg.  If c is OK, returns nil." -/
def Error (c : Code) (msg : String) : Option K8s.Error :=
  if c = codes.OK then none else some (K8s.Error.statusError c msg)

/-- The gRPC function `status.Code(err)`: OK for nil, the code of a status
error, Unknown for every other error. -/
def Code : Option K8s.Error → K8s.Code
  | none => codes.OK
  | some (K8s.Error.statusError c _) => c
  | some _ => codes.Unknown

/-- The message of `status.Convert(err)`: empty for nil, the message of a
status error, the error text otherwise. -/
def Message : Option K8s.Error → String
  | none => ""
  | some (K8s.Error.statusError _ m) => m
  | some (K8s.Error.errorString t) => t
  | some (K8s.Error.apiStatus _ m) => m
  | some (K8s.Error.transport t) => t

end status

/-- The predicate `apierrors.IsNotFound`: the error is an API status error
whose reason is NotFound. -/
def IsNotFound : Option Error → Bool
  | some (Error.apiStatus reason _) => reason == "NotFound"
  | _ => false

/-- The function `client.IgnoreNotFound`: nil for a not-found error, the
error itself otherwise. -/
def IgnoreNotFound (err : Option Error) : Option Error :=
  if IsNotFound err then none else err

/-! ## The LogicalVolume resource -/

/-- The output format of a quantity; `CreateVolume` uses `resource.BinarySI`. -/
inductive Format where
  | DecimalExponent
  | BinarySI
  | DecimalSI
  deriving DecidableEq, Repr

/-- A `resource.Quantity` holding a whole number of bytes; `Value` is what
the Go method `Value()` returns. -/
structure Quantity where
  Value : Int
  Format : Format
  deriving DecidableEq, Repr

/-- The constructor `resource.NewQuantity(value, format)`. -/
def NewQuantity (value : Int) (format : Format) : Quantity := ⟨value, format⟩

/-- The key `client.ObjectKey`. -/
structure ObjectKey where
  Namespace : String
  Name : String
  deriving DecidableEq, Repr

/-- The fields of `metav1.TypeMeta`. -/
structure TypeMeta where
  Kind : String
  APIVersion : String
  deriving DecidableEq, Repr

/-- The fields of `metav1.ObjectMeta` that `CreateVolume` sets. -/
structure ObjectMeta where
  Name : String
  Namespace : String
  deriving DecidableEq, Repr

/-- Modelled from the spec: the type `LogicalVolumeSpec` of package
`topolvm-node/api/v1`, with the fields `CreateVolume` writes and compares. -/
structure LogicalVolumeSpec where
  Name : String
  NodeName : String
  Size : Quantity
  deriving DecidableEq, Repr

/-- Modelled from the spec: the type `LogicalVolumeStatus` of package
`topolvm-node/api/v1`, with the fields `CreateVolume` reads. -/
structure LogicalVolumeStatus where
  Phase : String
  VolumeID : String
  Code : Code
  Message : String
  deriving DecidableEq, Repr

/-- Modelled from the spec: the type `LogicalVolume` of package
`topolvm-node/api/v1`. -/
structure LogicalVolume where
  TypeMeta : TypeMeta
  ObjectMeta : ObjectMeta
  Spec : LogicalVolumeSpec
  Status : LogicalVolumeStatus
  deriving DecidableEq, Repr

/-- The key under which a record is stored. -/
def LogicalVolume.key (lv : LogicalVolume) : ObjectKey :=
  ⟨lv.ObjectMeta.Namespace, lv.ObjectMeta.Name⟩

/-! ## The client interface and the service -/

/-- The three methods of `client.Client` that `CreateVolume` calls, as
state-passing functions on a world `σ`.  `Get` yields the record read or the
error; `Create` and `Delete` yield a Go `error`. -/
structure Client (σ : Type) where
  Get : ObjectKey → σ → Except Error LogicalVolume × σ
  Create : LogicalVolume → σ → Option Error × σ
  Delete : LogicalVolume → σ → Option Error × σ

/-- The struct `LogicalVolumeService` (its cache field is never used by
`CreateVolume`), together with the effect of `time.Sleep` on the world. -/
structure LogicalVolumeService (σ : Type) where
  k8sClient : Client σ
  namespace_ : String
  timeSleep : Nat → σ → σ

/-- An effect of `CreateVolume` on its environment, in the order issued. -/
inductive Call where
  | Get (key : ObjectKey)
  | Create (obj : LogicalVolume)
  | Delete (obj : LogicalVolume)
  | Sleep (seconds : Nat)
  deriving DecidableEq, Repr

/-- A finished run: the Go result `(volumeID, err)`, the calls issued and the
world left behind. -/
structure Outcome (σ : Type) where
  volumeID : String
  err : Option Error
  calls : List Call
  world : σ

/-- The same run with the calls `pre` issued before it. -/
def Outcome.after {σ : Type} (pre : List Call) (o : Outcome σ) : Outcome σ :=
  { o with calls := pre ++ o.calls }

/-- The record built on the not-found path (source lines 80-97). -/
def newLogicalVolume (namespace_ node name : String) (sizeGb : Int) : LogicalVolume :=
  { TypeMeta := { Kind := "LogicalVolume", APIVersion := "topolvm.cybozu.com/v1" }
    ObjectMeta := { Name := name, Namespace := namespace_ }
    Spec := { Name := name, NodeName := node,
              Size := NewQuantity (shl30 sizeGb) Format.BinarySI }
    Status := { Phase := "INITIAL", VolumeID := "", Code := 0, Message := "" } }

/-- The polling loop of `CreateVolume` (source lines 107-132) with
`remaining` iterations left; the source runs it with 10.  The log output on
a failed Delete is not part of the result. -/
def pollLoop {σ : Type} (s : LogicalVolumeService σ) (name : String) :
    Nat → σ → Outcome σ
  | 0, w => ⟨"", some (Error.errorString "timed out"), [], w⟩
  | remaining + 1, w =>
    let key : ObjectKey := ⟨s.namespace_, name⟩
    match s.k8sClient.Get key w with
    | (Except.error err, w1) => ⟨"", some err, [Call.Get key], w1⟩
    | (Except.ok newLV, w1) =>
      if newLV.Status.Phase = "CREATED" then
        if newLV.Status.VolumeID = "" then
          ⟨"", some (Error.errorString "VolumeID is empty"), [Call.Get key], w1⟩
        else
          ⟨newLV.Status.VolumeID, none, [Call.Get key], w1⟩
      else if newLV.Status.Phase = "CREATE_FAILED" then
        ⟨"", status.Error newLV.Status.Code newLV.Status.Message,
          [Call.Get key, Call.Delete newLV], (s.k8sClient.Delete newLV w1).2⟩
      else
        (pollLoop s name remaining (s.timeSleep 1 w1)).after [Call.Get key, Call.Sleep 1]

/-- The create-or-reuse step of `CreateVolume` (source lines 66-104): either
the run ends here (`inl`), or polling starts after the calls and in the world
given (`inr`). -/
def createOrReuse {σ : Type} (s : LogicalVolumeService σ) (node name : String)
    (sizeGb : Int) (w : σ) : Outcome σ ⊕ (List Call × σ) :=
  let key : ObjectKey := ⟨s.namespace_, name⟩
  match s.k8sClient.Get key w with
  | (Except.error err, w1) =>
    if IgnoreNotFound (some err) ≠ none then
      Sum.inl ⟨"", some err, [Call.Get key], w1⟩
    else
      let lv := newLogicalVolume s.namespace_ node name sizeGb
      match s.k8sClient.Create lv w1 with
      | (some err2, w2) => Sum.inl ⟨"", some err2, [Call.Get key, Call.Create lv], w2⟩
      | (none, w2) => Sum.inr ([Call.Get key, Call.Create lv], w2)
  | (Except.ok existingLV, w1) =>
    if existingLV.Spec.NodeName ≠ node ∨ existingLV.Spec.Size.Value ≠ shl30 sizeGb then
      Sum.inl ⟨"", status.Error codes.AlreadyExists "LogicalVolume already exists",
        [Call.Get key], w1⟩
    else
      Sum.inr ([Call.Get key], w1)

/-- The method `LogicalVolumeService.CreateVolume(ctx, node, name, sizeGb)`
run in world `w`: the create-or-reuse step, then the polling loop with its
ten iterations.  The log output and the wait group, which nothing waits on,
have no part in the result and are left out. -/
def CreateVolume {σ : Type} (s : LogicalVolumeService σ) (node name : String)
    (sizeGb : Int) (w : σ) : Outcome σ :=
  match createOrReuse s node name sizeGb w with
  | Sum.inl out => out
  | Sum.inr (pre, w1) => (pollLoop s name 10 w1).after pre

/-! ## The methods left unimplemented -/

/-- How a Go call ends: it returns a value, or it panics with a message. -/
inductive Ending (α : Type) where
  | returned (value : α)
  | panicked (message : String)

/-- The method `LogicalVolumeService.DeleteVolume(ctx, volumeID)` (source
lines 135-137), whose body is `panic("implement me")`.  A call that returned
would yield a Go `error` and a world. -/
def DeleteVolume {σ : Type} (_s : LogicalVolumeService σ) (_volumeID : String) (_w : σ) :
    Ending (Option Error × σ) :=
  Ending.panicked "implement me"

/-- The method `LogicalVolumeService.ExpandVolume(ctx, volumeID, sizeGb)`
(source lines 139-141), whose body is `panic("implement me")`. -/
def ExpandVolume {σ : Type} (_s : LogicalVolumeService σ) (_volumeID : String)
    (_sizeGb : Int) (_w : σ) : Ending (Option Error × σ) :=
  Ending.panicked "implement me"

/-! ## An in-memory cluster -/

/-- A world for the client: the records held by the API server, a clock that
counts the calls served and the seconds slept, the failure (if any) injected
into the call served at each time, and the agent, which at each time rewrites
the status of every record. -/
structure Cluster where
  objects : List LogicalVolume
  now : Nat
  fault : Nat → Option Error
  agent : Nat → LogicalVolume → LogicalVolumeStatus

namespace Cluster

/-- The agent writes the status of every record and the clock advances. -/
def settle (w : Cluster) : Cluster :=
  { w with
    objects := w.objects.map (fun lv => { lv with Status := w.agent w.now lv })
    now := w.now + 1 }

/-- The first record stored under a key. -/
def lookup (key : ObjectKey) (objects : List LogicalVolume) : Option LogicalVolume :=
  objects.find? (fun lv => decide (lv.key = key))

/-- Serving `Get`: the record under the key, or a NotFound status error. -/
def Get (key : ObjectKey) (w : Cluster) : Except Error LogicalVolume × Cluster :=
  match w.fault w.now with
  | some e => (Except.error e, w.settle)
  | none =>
    match lookup key w.settle.objects with
    | some lv => (Except.ok lv, w.settle)
    | none => (Except.error (Error.apiStatus "NotFound" "not found"), w.settle)

/-- Serving `Create`: the record is added unless its key is taken. -/
def Create (lv : LogicalVolume) (w : Cluster) : Option Error × Cluster :=
  match w.fault w.now with
  | some e => (some e, w.settle)
  | none =>
    match lookup lv.key w.settle.objects with
    | some _ => (some (Error.apiStatus "AlreadyExists" "already exists"), w.settle)
    | none => (none, { w.settle with objects := w.settle.objects ++ [lv] })

/-- Serving `Delete`: every record under the key of `lv` is removed; a
missing record is a NotFound status error. -/
def Delete (lv : LogicalVolume) (w : Cluster) : Option Error × Cluster :=
  match w.fault w.now with
  | some e => (some e, w.settle)
  | none =>
    match lookup lv.key w.settle.objects with
    | none => (some (Error.apiStatus "NotFound" "not found"), w.settle)
    | some _ =>
      (none, { w.settle with
               objects := w.settle.objects.filter (fun o => decide (o.key ≠ lv.key)) })

/-- The client of the in-memory cluster. -/
def client : Client Cluster := ⟨Get, Create, Delete⟩

/-- The service running against the in-memory cluster; sleeping advances the
clock. -/
def service (namespace_ : String) : LogicalVolumeService Cluster :=
  ⟨client, namespace_, fun seconds w => { w with now := w.now + seconds }⟩

end Cluster

/-! ## Observing a run -/

/-- Whether a call is a `Create`. -/
def Call.isCreate : Call → Bool
  | Call.Create _ => true
  | _ => false

/-- Whether a call is a `Delete`. -/
def Call.isDelete : Call → Bool
  | Call.Delete _ => true
  | _ => false

/-- Whether a call is a `Get`. -/
def Call.isGet : Call → Bool
  | Call.Get _ => true
  | _ => false

/-- Whether a call is a `Sleep`. -/
def Call.isSleep : Call → Bool
  | Call.Sleep _ => true
  | _ => false

/-- The world in which poll number `k` (counted from 0) issues its `Get`,
when every earlier poll read a record and slept. -/
def pollWorld {σ : Type} (s : LogicalVolumeService σ) (name : String) : Nat → σ → σ
  | 0, w => w
  | k + 1, w => pollWorld s name k (s.timeSleep 1 (s.k8sClient.Get ⟨s.namespace_, name⟩ w).2)

/-- What the `Get` of poll number `k` returns. -/
def observed {σ : Type} (s : LogicalVolumeService σ) (name : String) (k : Nat) (w : σ) :
    Except Error LogicalVolume :=
  (s.k8sClient.Get ⟨s.namespace_, name⟩ (pollWorld s name k w)).1

/-- The world right after the `Get` of poll number `k`. -/
def observedWorld {σ : Type} (s : LogicalVolumeService σ) (name : String) (k : Nat) (w : σ) :
    σ :=
  (s.k8sClient.Get ⟨s.namespace_, name⟩ (pollWorld s name k w)).2

/-- A poll result that lets the loop go on: a record was read and its phase
is neither CREATED nor CREATE_FAILED. -/
def pending : Except Error LogicalVolume → Bool
  | Except.ok lv =>
    decide (lv.Status.Phase ≠ "CREATED") && decide (lv.Status.Phase ≠ "CREATE_FAILED")
  | Except.error _ => false

/-- A poll result that is a record in the given phase. -/
def inPhase (phase : String) : Except Error LogicalVolume → Bool
  | Except.ok lv => decide (lv.Status.Phase = phase)
  | Except.error _ => false

/-- The calls issued by `k` polls that all went on. -/
def pendingCalls (key : ObjectKey) : Nat → List Call
  | 0 => []
  | k + 1 => Call.Get key :: Call.Sleep 1 :: pendingCalls key k

/-- The records stored under a key. -/
def Cluster.under (key : ObjectKey) (objects : List LogicalVolume) : List LogicalVolume :=
  objects.filter (fun lv => decide (lv.key = key))

/-- The cluster after the time a call takes, had the call left the store
alone: for a call to the store the agent writes and the clock advances, for a
Sleep the clock advances. -/
def Cluster.pass (w : Cluster) : Call → Cluster
  | Call.Sleep seconds => { w with now := w.now + seconds }
  | _ => w.settle

/-- The cluster after the time a list of calls takes, had they left the
store alone. -/
def Cluster.passAll (calls : List Call) (w : Cluster) : Cluster :=
  calls.foldl Cluster.pass w

/-- The cluster with some records added at the end of its store. -/
def Cluster.plus (w : Cluster) (extra : List LogicalVolume) : Cluster :=
  { w with objects := w.objects ++ extra }

/-! ## Scenarios -/

/-- An agent that leaves every status as it is. -/
def idleAgent : Nat → LogicalVolume → LogicalVolumeStatus := fun _ lv => lv.Status

/-- No call fails. -/
def noFault : Nat → Option Error := fun _ => none

/-- An empty cluster with an idle agent. -/
def emptyCluster : Cluster := ⟨[], 0, noFault, idleAgent⟩

/-- A cluster holding the record that `CreateVolume "n1" "v1" 10` creates in
namespace `topolvm`, with an idle agent. -/
def clusterV1 : Cluster := ⟨[newLogicalVolume "topolvm" "n1" "v1" 10], 0, noFault, idleAgent⟩

/-- The part of a record that the agent never writes: everything but the
status. -/
def LogicalVolume.desired (lv : LogicalVolume) :
    K8s.TypeMeta × K8s.ObjectMeta × LogicalVolumeSpec :=
  (lv.TypeMeta, lv.ObjectMeta, lv.Spec)

/-- The records of a store with their status left out. -/
def Cluster.desiredOf (objects : List LogicalVolume) :
    List (TypeMeta × ObjectMeta × LogicalVolumeSpec) :=
  objects.map LogicalVolume.desired

/-- The records of a store that are not under a key. -/
def Cluster.without (key : ObjectKey) (objects : List LogicalVolume) : List LogicalVolume :=
  objects.filter (fun o => decide (o.key ≠ key))

/-- An agent that from time 5 on reports every record as CREATED with the
volume ID `abc`. -/
def createdAgent : Nat → LogicalVolume → LogicalVolumeStatus := fun t lv =>
  if t < 5 then lv.Status else ⟨"CREATED", "abc", 0, ""⟩

/-- An empty cluster whose agent is `createdAgent`. -/
def createdCluster : Cluster := ⟨[], 0, noFault, createdAgent⟩

/-- The world of `createdCluster` once the record `v1` has been created. -/
def createdStart : Cluster :=
  (Cluster.Create (newLogicalVolume "topolvm" "n1" "v1" 10)
    (Cluster.Get ⟨"topolvm", "v1"⟩ createdCluster).2).2

/-- The record `v1` as `createdAgent` reports it. -/
def createdRecord : LogicalVolume :=
  { newLogicalVolume "topolvm" "n1" "v1" 10 with Status := ⟨"CREATED", "abc", 0, ""⟩ }

/-- An agent that from time 5 on reports every record as CREATED but leaves
the volume ID empty. -/
def forgetfulAgent : Nat → LogicalVolume → LogicalVolumeStatus := fun t lv =>
  if t < 5 then lv.Status else ⟨"CREATED", "", 0, ""⟩

/-- An empty cluster whose agent is `forgetfulAgent`. -/
def forgetfulCluster : Cluster := ⟨[], 0, noFault, forgetfulAgent⟩

/-- The world of `forgetfulCluster` once the record `v1` has been created. -/
def forgetfulStart : Cluster :=
  (Cluster.Create (newLogicalVolume "topolvm" "n1" "v1" 10)
    (Cluster.Get ⟨"topolvm", "v1"⟩ forgetfulCluster).2).2

/-- The record `v1` as `forgetfulAgent` reports it. -/
def forgetfulRecord : LogicalVolume :=
  { newLogicalVolume "topolvm" "n1" "v1" 10 with Status := ⟨"CREATED", "", 0, ""⟩ }

/-- The world of `emptyCluster` once the record `v1` has been created. -/
def idleStart : Cluster :=
  (Cluster.Create (newLogicalVolume "topolvm" "n1" "v1" 10)
    (Cluster.Get ⟨"topolvm", "v1"⟩ emptyCluster).2).2

/-- An agent that from time 5 on reports every record as CREATE_FAILED with
code Internal and message `disk full`. -/
def failingAgent : Nat → LogicalVolume → LogicalVolumeStatus := fun t lv =>
  if t < 5 then lv.Status else ⟨"CREATE_FAILED", "", codes.Internal, "disk full"⟩

/-- An empty cluster whose agent is `failingAgent`. -/
def failingCluster : Cluster := ⟨[], 0, noFault, failingAgent⟩

/-- The world of `failingCluster` once the record `v1` has been created. -/
def failingStart : Cluster :=
  (Cluster.Create (newLogicalVolume "topolvm" "n1" "v1" 10)
    (Cluster.Get ⟨"topolvm", "v1"⟩ failingCluster).2).2

/-- The record `v1` as `failingAgent` reports it. -/
def failingRecord : LogicalVolume :=
  { newLogicalVolume "topolvm" "n1" "v1" 10 with
    Status := ⟨"CREATE_FAILED", "", codes.Internal, "disk full"⟩ }

/-- The record `v1` in phase CREATE_FAILED with the code OK and the message
`disk full`. -/
def okFailedRecord : LogicalVolume :=
  { newLogicalVolume "topolvm" "n1" "v1" 10 with
    Status := ⟨"CREATE_FAILED", "", codes.OK, "disk full"⟩ }

/-- A cluster holding `okFailedRecord`, with an idle agent. -/
def okFailedCluster : Cluster := ⟨[okFailedRecord], 0, noFault, idleAgent⟩

/-- An agent that from time 5 on sets the phase of every record to
CREATE_FAILED and leaves the other status fields at their zero values. -/
def zeroCodeAgent : Nat → LogicalVolume → LogicalVolumeStatus := fun t lv =>
  if t < 5 then lv.Status else ⟨"CREATE_FAILED", "", 0, ""⟩

/-- An empty cluster whose agent is `zeroCodeAgent`. -/
def zeroCodeCluster : Cluster := ⟨[], 0, noFault, zeroCodeAgent⟩

/-- The service `s` with its client's `Delete` replaced by `d`. -/
def withDelete {σ : Type} (s : LogicalVolumeService σ)
    (d : LogicalVolume → σ → Option Error × σ) : LogicalVolumeService σ :=
  { s with k8sClient := { s.k8sClient with Delete := d } }

/-- A `Delete` that always fails and removes nothing. -/
def brokenDelete : LogicalVolume → Cluster → Option Error × Cluster :=
  fun _ w => (some (Error.transport "connection refused"), w.settle)

/-- An agent that writes nothing before time 22 and from then on reports
every record as CREATE_FAILED with code Internal and message `disk full`. -/
def lateFailingAgent : Nat → LogicalVolume → LogicalVolumeStatus := fun t lv =>
  if t < 22 then lv.Status else ⟨"CREATE_FAILED", "", codes.Internal, "disk full"⟩

/-- An empty cluster whose agent is `lateFailingAgent`. -/
def lateFailingCluster : Cluster := ⟨[], 0, noFault, lateFailingAgent⟩

/-- An empty cluster whose first call fails with a transport error. -/
def downCluster : Cluster :=
  ⟨[], 0, fun t => if t = 0 then some (Error.transport "connection refused") else none,
    idleAgent⟩

/-- An empty cluster whose second call, the Create, is refused. -/
def refusingCluster : Cluster :=
  ⟨[], 0, fun t => if t = 1 then some (Error.apiStatus "Forbidden" "forbidden") else none,
    idleAgent⟩

/-- An empty cluster whose call at time 4, the second poll, reports
not-found. -/
def vanishingCluster : Cluster :=
  ⟨[], 0, fun t => if t = 4 then some (Error.apiStatus "NotFound" "not found") else none,
    idleAgent⟩

/-- The world of `vanishingCluster` once the record `v1` has been created. -/
def vanishingStart : Cluster :=
  (Cluster.Create (newLogicalVolume "topolvm" "n1" "v1" 10)
    (Cluster.Get ⟨"topolvm", "v1"⟩ vanishingCluster).2).2

/-- An agent that writes an empty phase before time 8 and from then on the
phase `created`, in lower case, with the volume ID `abc`. -/
def oddAgent : Nat → LogicalVolume → LogicalVolumeStatus := fun t _ =>
  if t < 8 then ⟨"", "", 0, ""⟩ else ⟨"created", "abc", 0, ""⟩

/-- An empty cluster whose agent is `oddAgent`. -/
def oddCluster : Cluster := ⟨[], 0, noFault, oddAgent⟩

/-- The world of `oddCluster` once the record `v1` has been created. -/
def oddStart : Cluster :=
  (Cluster.Create (newLogicalVolume "topolvm" "n1" "v1" 10)
    (Cluster.Get ⟨"topolvm", "v1"⟩ oddCluster).2).2

/-- An empty cluster whose agent is `lateFailingAgent` and whose call at
time 24 fails with a transport error. -/
def stuckCluster : Cluster :=
  ⟨[], 0, fun t => if t = 24 then some (Error.transport "connection refused") else none,
    lateFailingAgent⟩

/-! ## General facts about the polling loop -/

theorem after_volumeID {σ : Type} (pre : List Call) (o : Outcome σ) :
    (o.after pre).volumeID = o.volumeID := rfl

theorem after_err {σ : Type} (pre : List Call) (o : Outcome σ) :
    (o.after pre).err = o.err := rfl

theorem after_calls {σ : Type} (pre : List Call) (o : Outcome σ) :
    (o.after pre).calls = pre ++ o.calls := rfl

theorem after_world {σ : Type} (pre : List Call) (o : Outcome σ) :
    (o.after pre).world = o.world := rfl

theorem after_after {σ : Type} (pre pre2 : List Call) (o : Outcome σ) :
    (o.after pre2).after pre = o.after (pre ++ pre2) := by
  simp [Outcome.after, List.append_assoc]

theorem pendingCalls_succ_append (key : ObjectKey) (k : Nat) :
    pendingCalls key k ++ [Call.Get key, Call.Sleep 1] = pendingCalls key (k + 1) := by
  induction k with
  | zero => rfl
  | succ k ih =>
    show Call.Get key :: Call.Sleep 1 :: (pendingCalls key k ++ [Call.Get key, Call.Sleep 1]) = _
    rw [ih]
    rfl

/-- One poll that reads a pending record sleeps and goes on. -/
theorem pollLoop_step_pending {σ : Type} (s : LogicalVolumeService σ) (name : String)
    (n : Nat) (w : σ) (h : pending (s.k8sClient.Get ⟨s.namespace_, name⟩ w).1 = true) :
    pollLoop s name (n + 1) w =
      (pollLoop s name n (s.timeSleep 1 (s.k8sClient.Get ⟨s.namespace_, name⟩ w).2)).after
        [Call.Get ⟨s.namespace_, name⟩, Call.Sleep 1] := by
  rcases hg : s.k8sClient.Get ⟨s.namespace_, name⟩ w with ⟨r, w1⟩
  rw [hg] at h
  cases r with
  | error e => simp [pending] at h
  | ok lv =>
    simp only [pending, Bool.and_eq_true, decide_eq_true_eq] at h
    simp [pollLoop, hg, h.1, h.2]

/-- After `k` polls that all read a pending record, the loop is where it
would be had it started in `pollWorld k` with `k` fewer iterations. -/
theorem pollLoop_pending {σ : Type} (s : LogicalVolumeService σ) (name : String) :
    ∀ (k n : Nat) (w : σ), (∀ j, j < k → pending (observed s name j w) = true) →
      pollLoop s name (n + k) w =
        (pollLoop s name n (pollWorld s name k w)).after
          (pendingCalls ⟨s.namespace_, name⟩ k) := by
  intro k
  induction k with
  | zero =>
    intro n w _
    simp [pollWorld, pendingCalls, Outcome.after]
  | succ k ih =>
    intro n w h
    have h0 : pending (s.k8sClient.Get ⟨s.namespace_, name⟩ w).1 = true := h 0 (Nat.succ_pos k)
    have hrest : ∀ j, j < k → pending (observed s name j
        (s.timeSleep 1 (s.k8sClient.Get ⟨s.namespace_, name⟩ w).2)) = true := by
      intro j hj
      exact h (j + 1) (Nat.succ_lt_succ hj)
    have e : n + (k + 1) = (n + k) + 1 := by omega
    rw [e, pollLoop_step_pending s name (n + k) w h0, ih n _ hrest, after_after]
    rfl

/-- The loop never issues a `Create`. -/
theorem pollLoop_no_create {σ : Type} (s : LogicalVolumeService σ) (name : String) :
    ∀ (n : Nat) (w : σ), ((pollLoop s name n w).calls.all fun c => !c.isCreate) = true := by
  intro n
  induction n with
  | zero => intro w; rfl
  | succ n ih =>
    intro w
    rcases hg : s.k8sClient.Get ⟨s.namespace_, name⟩ w with ⟨r, w1⟩
    cases r with
    | error e => simp [pollLoop, hg, Call.isCreate]
    | ok lv =>
      by_cases h1 : lv.Status.Phase = "CREATED"
      · by_cases h2 : lv.Status.VolumeID = "" <;> simp [pollLoop, hg, h1, h2, Call.isCreate]
      · by_cases h3 : lv.Status.Phase = "CREATE_FAILED"
        · simp [pollLoop, hg, h1, h3, Call.isCreate]
        · have := ih (s.timeSleep 1 w1)
          simp [pollLoop, hg, h1, h3, Call.isCreate, Outcome.after] at this ⊢
          exact this

/-- A poll that reads a CREATED record with a volume ID ends the loop with it. -/
theorem pollLoop_step_created {σ : Type} (s : LogicalVolumeService σ) (name : String)
    (n : Nat) (w : σ) (lv : LogicalVolume)
    (hobs : (s.k8sClient.Get ⟨s.namespace_, name⟩ w).1 = Except.ok lv)
    (hph : lv.Status.Phase = "CREATED") (hid : lv.Status.VolumeID ≠ "") :
    pollLoop s name (n + 1) w =
      ⟨lv.Status.VolumeID, none, [Call.Get ⟨s.namespace_, name⟩],
        (s.k8sClient.Get ⟨s.namespace_, name⟩ w).2⟩ := by
  rcases hg : s.k8sClient.Get ⟨s.namespace_, name⟩ w with ⟨r, w1⟩
  rw [hg] at hobs
  simp only at hobs
  subst hobs
  simp [pollLoop, hg, hph, hid]

/-- A poll that reads a CREATED record without a volume ID ends the loop with
the error made by `errors.New`. -/
theorem pollLoop_step_created_empty {σ : Type} (s : LogicalVolumeService σ) (name : String)
    (n : Nat) (w : σ) (lv : LogicalVolume)
    (hobs : (s.k8sClient.Get ⟨s.namespace_, name⟩ w).1 = Except.ok lv)
    (hph : lv.Status.Phase = "CREATED") (hid : lv.Status.VolumeID = "") :
    pollLoop s name (n + 1) w =
      ⟨"", some (Error.errorString "VolumeID is empty"), [Call.Get ⟨s.namespace_, name⟩],
        (s.k8sClient.Get ⟨s.namespace_, name⟩ w).2⟩ := by
  rcases hg : s.k8sClient.Get ⟨s.namespace_, name⟩ w with ⟨r, w1⟩
  rw [hg] at hobs
  simp only at hobs
  subst hobs
  simp [pollLoop, hg, hph, hid]

/-- A poll that reads a CREATE_FAILED record deletes it and ends the loop
with the status error built from the record. -/
theorem pollLoop_step_failed {σ : Type} (s : LogicalVolumeService σ) (name : String)
    (n : Nat) (w : σ) (lv : LogicalVolume)
    (hobs : (s.k8sClient.Get ⟨s.namespace_, name⟩ w).1 = Except.ok lv)
    (hph : lv.Status.Phase = "CREATE_FAILED") :
    pollLoop s name (n + 1) w =
      ⟨"", status.Error lv.Status.Code lv.Status.Message,
        [Call.Get ⟨s.namespace_, name⟩, Call.Delete lv],
        (s.k8sClient.Delete lv (s.k8sClient.Get ⟨s.namespace_, name⟩ w).2).2⟩ := by
  rcases hg : s.k8sClient.Get ⟨s.namespace_, name⟩ w with ⟨r, w1⟩
  rw [hg] at hobs
  simp only at hobs
  subst hobs
  have hne : lv.Status.Phase ≠ "CREATED" := by rw [hph]; decide
  simp [pollLoop, hg, hph, hne]

/-- A poll whose `Get` fails ends the loop with that error. -/
theorem pollLoop_step_error {σ : Type} (s : LogicalVolumeService σ) (name : String)
    (n : Nat) (w : σ) (e : Error)
    (hobs : (s.k8sClient.Get ⟨s.namespace_, name⟩ w).1 = Except.error e) :
    pollLoop s name (n + 1) w =
      ⟨"", some e, [Call.Get ⟨s.namespace_, name⟩],
        (s.k8sClient.Get ⟨s.namespace_, name⟩ w).2⟩ := by
  rcases hg : s.k8sClient.Get ⟨s.namespace_, name⟩ w with ⟨r, w1⟩
  rw [hg] at hobs
  simp only at hobs
  subst hobs
  simp [pollLoop, hg]

/-- The loop after `k` pending polls and a CREATED record with a volume ID. -/
theorem pollLoop_created {σ : Type} (s : LogicalVolumeService σ) (name : String)
    (k n : Nat) (w : σ) (lv : LogicalVolume)
    (hpend : ∀ j, j < k → pending (observed s name j w) = true)
    (hobs : observed s name k w = Except.ok lv)
    (hph : lv.Status.Phase = "CREATED") (hid : lv.Status.VolumeID ≠ "") :
    pollLoop s name (n + 1 + k) w =
      ⟨lv.Status.VolumeID, none,
        pendingCalls ⟨s.namespace_, name⟩ k ++ [Call.Get ⟨s.namespace_, name⟩],
        observedWorld s name k w⟩ := by
  rw [pollLoop_pending s name k (n + 1) w hpend,
    pollLoop_step_created s name n _ lv hobs hph hid]
  rfl

/-- The loop after `k` pending polls and a CREATED record without a volume ID. -/
theorem pollLoop_created_empty {σ : Type} (s : LogicalVolumeService σ) (name : String)
    (k n : Nat) (w : σ) (lv : LogicalVolume)
    (hpend : ∀ j, j < k → pending (observed s name j w) = true)
    (hobs : observed s name k w = Except.ok lv)
    (hph : lv.Status.Phase = "CREATED") (hid : lv.Status.VolumeID = "") :
    pollLoop s name (n + 1 + k) w =
      ⟨"", some (Error.errorString "VolumeID is empty"),
        pendingCalls ⟨s.namespace_, name⟩ k ++ [Call.Get ⟨s.namespace_, name⟩],
        observedWorld s name k w⟩ := by
  rw [pollLoop_pending s name k (n + 1) w hpend,
    pollLoop_step_created_empty s name n _ lv hobs hph hid]
  rfl

/-- The loop after `k` pending polls and a CREATE_FAILED record. -/
theorem pollLoop_failed {σ : Type} (s : LogicalVolumeService σ) (name : String)
    (k n : Nat) (w : σ) (lv : LogicalVolume)
    (hpend : ∀ j, j < k → pending (observed s name j w) = true)
    (hobs : observed s name k w = Except.ok lv)
    (hph : lv.Status.Phase = "CREATE_FAILED") :
    pollLoop s name (n + 1 + k) w =
      ⟨"", status.Error lv.Status.Code lv.Status.Message,
        pendingCalls ⟨s.namespace_, name⟩ k ++
          [Call.Get ⟨s.namespace_, name⟩, Call.Delete lv],
        (s.k8sClient.Delete lv (observedWorld s name k w)).2⟩ := by
  rw [pollLoop_pending s name k (n + 1) w hpend,
    pollLoop_step_failed s name n _ lv hobs hph]
  rfl

/-- The loop after `k` pending polls and a failed `Get`. -/
theorem pollLoop_error {σ : Type} (s : LogicalVolumeService σ) (name : String)
    (k n : Nat) (w : σ) (e : Error)
    (hpend : ∀ j, j < k → pending (observed s name j w) = true)
    (hobs : observed s name k w = Except.error e) :
    pollLoop s name (n + 1 + k) w =
      ⟨"", some e,
        pendingCalls ⟨s.namespace_, name⟩ k ++ [Call.Get ⟨s.namespace_, name⟩],
        observedWorld s name k w⟩ := by
  rw [pollLoop_pending s name k (n + 1) w hpend, pollLoop_step_error s name n _ e hobs]
  rfl

/-- The loop when every one of its `n` polls is pending. -/
theorem pollLoop_timeout {σ : Type} (s : LogicalVolumeService σ) (name : String)
    (n : Nat) (w : σ) (hpend : ∀ j, j < n → pending (observed s name j w) = true) :
    pollLoop s name n w =
      ⟨"", some (Error.errorString "timed out"), pendingCalls ⟨s.namespace_, name⟩ n,
        pollWorld s name n w⟩ := by
  have h := pollLoop_pending s name n 0 w hpend
  rw [Nat.zero_add] at h
  rw [h]
  simp [pollLoop, Outcome.after]

/-- Pending polls issue no `Delete`. -/
theorem pendingCalls_no_delete (key : ObjectKey) (k : Nat) :
    ((pendingCalls key k).all fun c => !c.isDelete) = true := by
  induction k with
  | zero => rfl
  | succ k ih => simpa [pendingCalls, Call.isDelete] using ih

/-- Pending polls issue no `Create`. -/
theorem pendingCalls_no_create (key : ObjectKey) (k : Nat) :
    ((pendingCalls key k).all fun c => !c.isCreate) = true := by
  induction k with
  | zero => rfl
  | succ k ih => simpa [pendingCalls, Call.isCreate] using ih

/-- The `k` pending polls issue `k` Gets. -/
theorem pendingCalls_count_get (key : ObjectKey) (k : Nat) :
    (pendingCalls key k).countP Call.isGet = k := by
  induction k with
  | zero => rfl
  | succ k ih => simp [pendingCalls, Call.isGet, ih]

/-- The create-or-reuse step, when it hands over to polling, has issued
either the one Get (a compatible record was found) or the Get and the Create
of the new record (none was found). -/
theorem createOrReuse_inr {σ : Type} (s : LogicalVolumeService σ) (node name : String)
    (sizeGb : Int) (w : σ) (pre : List Call) (w1 : σ)
    (h : createOrReuse s node name sizeGb w = Sum.inr (pre, w1)) :
    pre = [Call.Get ⟨s.namespace_, name⟩] ∨
    pre = [Call.Get ⟨s.namespace_, name⟩,
      Call.Create (newLogicalVolume s.namespace_ node name sizeGb)] := by
  rcases hg : s.k8sClient.Get ⟨s.namespace_, name⟩ w with ⟨r, wg⟩
  simp only [createOrReuse, hg] at h
  cases r with
  | error e =>
    simp only at h
    split at h
    · cases h
    · rcases hc : s.k8sClient.Create (newLogicalVolume s.namespace_ node name sizeGb) wg
        with ⟨ce, wc⟩
      simp only [hc] at h
      cases ce with
      | some e2 => cases h
      | none =>
        simp only [Sum.inr.injEq, Prod.mk.injEq] at h
        exact Or.inr h.1.symm
  | ok lv =>
    simp only at h
    split at h
    · cases h
    · simp only [Sum.inr.injEq, Prod.mk.injEq] at h
      exact Or.inl h.1.symm

/-- The run of `CreateVolume` once the create-or-reuse step has handed over. -/
theorem createVolume_of_inr {σ : Type} (s : LogicalVolumeService σ) (node name : String)
    (sizeGb : Int) (w : σ) (pre : List Call) (w1 : σ)
    (h : createOrReuse s node name sizeGb w = Sum.inr (pre, w1)) :
    CreateVolume s node name sizeGb w = (pollLoop s name 10 w1).after pre := by
  simp [CreateVolume, h]

/-! ## Facts about the in-memory cluster -/

theorem Cluster.get_world (key : ObjectKey) (w : Cluster) :
    (Cluster.Get key w).2 = w.settle := by
  unfold Cluster.Get
  cases w.fault w.now with
  | some e => rfl
  | none =>
    cases Cluster.lookup key w.settle.objects with
    | some lv => rfl
    | none => rfl

theorem Cluster.get_ok_lookup (key : ObjectKey) (w : Cluster) (lv : LogicalVolume)
    (h : (Cluster.Get key w).1 = Except.ok lv) :
    Cluster.lookup key w.settle.objects = some lv := by
  unfold Cluster.Get at h
  cases hf : w.fault w.now with
  | some e => simp [hf] at h
  | none =>
    cases hl : Cluster.lookup key w.settle.objects with
    | some lv2 =>
      simp [hf, hl] at h
      rw [h]
    | none => simp [hf, hl] at h

theorem Cluster.lookup_mem (key : ObjectKey) (objects : List LogicalVolume)
    (lv : LogicalVolume) (h : Cluster.lookup key objects = some lv) : lv ∈ objects :=
  List.mem_of_find?_eq_some h

theorem Cluster.lookup_key (key : ObjectKey) (objects : List LogicalVolume)
    (lv : LogicalVolume) (h : Cluster.lookup key objects = some lv) : lv.key = key := by
  have := List.find?_some h
  simpa using this

theorem Cluster.settle_idle (w : Cluster)
    (h : ∀ lv ∈ w.objects, w.agent w.now lv = lv.Status) :
    w.settle.objects = w.objects := by
  unfold Cluster.settle
  simp only
  conv_rhs => rw [← List.map_id w.objects]
  apply List.map_congr_left
  intro lv hlv
  rw [h lv hlv]
  rfl

/-! ## C1: an incompatible record under the name -/

/-- C1: when the initial Get finds a record whose node differs from `node` or
whose size differs from `sizeGb<<30`, CreateVolume returns the empty volume ID
with an AlreadyExists status error, issues that one Get and nothing else, and
leaves the cluster as the Get left it: the record found is still stored, and
if the agent wrote nothing meanwhile the stored records are exactly those
from before the call. -/
theorem createVolume_incompatible (ns node name : String) (sizeGb : Int) (w : Cluster)
    (existingLV : LogicalVolume)
    (hget : (Cluster.Get ⟨ns, name⟩ w).1 = Except.ok existingLV)
    (hinc : existingLV.Spec.NodeName ≠ node ∨ existingLV.Spec.Size.Value ≠ shl30 sizeGb) :
    (CreateVolume (Cluster.service ns) node name sizeGb w).volumeID = "" ∧
    (CreateVolume (Cluster.service ns) node name sizeGb w).err =
      some (Error.statusError codes.AlreadyExists "LogicalVolume already exists") ∧
    status.Code (CreateVolume (Cluster.service ns) node name sizeGb w).err =
      codes.AlreadyExists ∧
    (CreateVolume (Cluster.service ns) node name sizeGb w).calls = [Call.Get ⟨ns, name⟩] ∧
    (CreateVolume (Cluster.service ns) node name sizeGb w).world =
      (Cluster.Get ⟨ns, name⟩ w).2 ∧
    existingLV ∈ (CreateVolume (Cluster.service ns) node name sizeGb w).world.objects ∧
    ((∀ lv ∈ w.objects, w.agent w.now lv = lv.Status) →
      (CreateVolume (Cluster.service ns) node name sizeGb w).world.objects = w.objects) := by
  have hl := Cluster.get_ok_lookup _ _ _ hget
  have hw := Cluster.get_world ⟨ns, name⟩ w
  have hrun : CreateVolume (Cluster.service ns) node name sizeGb w =
      ⟨"", status.Error codes.AlreadyExists "LogicalVolume already exists",
        [Call.Get ⟨ns, name⟩], (Cluster.Get ⟨ns, name⟩ w).2⟩ := by
    rcases hg : Cluster.Get ⟨ns, name⟩ w with ⟨r, w1⟩
    rw [hg] at hget
    simp only at hget
    subst hget
    simp [CreateVolume, createOrReuse, Cluster.service, Cluster.client, hg, hinc]
  rw [hrun]
  refine ⟨rfl, rfl, rfl, rfl, rfl, ?_, ?_⟩
  · show existingLV ∈ (Cluster.Get ⟨ns, name⟩ w).2.objects
    rw [hw]
    exact Cluster.lookup_mem _ _ _ hl
  · intro hidle
    show (Cluster.Get ⟨ns, name⟩ w).2.objects = w.objects
    rw [hw]
    exact Cluster.settle_idle w hidle

/-- C1, the spec's example: after `v1` was created on node `n1` with 10 GB, a
request for `v1` on node `n2` fails with AlreadyExists after a single Get and
the record is untouched. -/
theorem createVolume_incompatible_witness :
    (Cluster.Get ⟨"topolvm", "v1"⟩ clusterV1).1 =
      Except.ok (newLogicalVolume "topolvm" "n1" "v1" 10) ∧
    ((newLogicalVolume "topolvm" "n1" "v1" 10).Spec.NodeName ≠ "n2" ∨
      (newLogicalVolume "topolvm" "n1" "v1" 10).Spec.Size.Value ≠ shl30 10) ∧
    (CreateVolume (Cluster.service "topolvm") "n2" "v1" 10 clusterV1).err =
      some (Error.statusError codes.AlreadyExists "LogicalVolume already exists") ∧
    (CreateVolume (Cluster.service "topolvm") "n2" "v1" 10 clusterV1).calls =
      [Call.Get ⟨"topolvm", "v1"⟩] ∧
    (CreateVolume (Cluster.service "topolvm") "n2" "v1" 10 clusterV1).world.objects =
      clusterV1.objects :=
  have h := createVolume_incompatible "topolvm" "n2" "v1" 10 clusterV1
    (newLogicalVolume "topolvm" "n1" "v1" 10) rfl (Or.inl (by decide))
  ⟨rfl, Or.inl (by decide), h.2.1, h.2.2.2.1, h.2.2.2.2.2.2 (fun _ _ => rfl)⟩

/-! ## C3: no record under the name -/

/-- C3: when the initial Get reports not-found, the calls of CreateVolume
begin with that Get followed by one Create, no later call is a Create (so the
Create precedes every polling Get), and the record created has key
(namespace, name), spec name `name`, node `node`, size `sizeGb<<30`, phase
INITIAL and an empty volume ID. -/
theorem createVolume_notFound_creates {σ : Type} (s : LogicalVolumeService σ)
    (node name : String) (sizeGb : Int) (w : σ) (e : Error)
    (hget : (s.k8sClient.Get ⟨s.namespace_, name⟩ w).1 = Except.error e)
    (hnf : IsNotFound (some e) = true) :
    (∃ rest : List Call,
      (CreateVolume s node name sizeGb w).calls =
        Call.Get ⟨s.namespace_, name⟩ ::
          Call.Create (newLogicalVolume s.namespace_ node name sizeGb) :: rest ∧
      (rest.all fun c => !c.isCreate) = true) ∧
    (newLogicalVolume s.namespace_ node name sizeGb).key = ⟨s.namespace_, name⟩ ∧
    (newLogicalVolume s.namespace_ node name sizeGb).Spec.Name = name ∧
    (newLogicalVolume s.namespace_ node name sizeGb).Spec.NodeName = node ∧
    (newLogicalVolume s.namespace_ node name sizeGb).Spec.Size.Value = shl30 sizeGb ∧
    (newLogicalVolume s.namespace_ node name sizeGb).Status.Phase = "INITIAL" ∧
    (newLogicalVolume s.namespace_ node name sizeGb).Status.VolumeID = "" := by
  refine ⟨?_, rfl, rfl, rfl, rfl, rfl, rfl⟩
  rcases hg : s.k8sClient.Get ⟨s.namespace_, name⟩ w with ⟨r, wg⟩
  rw [hg] at hget
  simp only at hget
  subst hget
  have hign : IgnoreNotFound (some e) = none := by simp [IgnoreNotFound, hnf]
  rcases hc : s.k8sClient.Create (newLogicalVolume s.namespace_ node name sizeGb) wg
    with ⟨ce, wc⟩
  cases ce with
  | some e2 =>
    refine ⟨[], ?_, rfl⟩
    simp [CreateVolume, createOrReuse, hg, hign, hc]
  | none =>
    refine ⟨(pollLoop s name 10 wc).calls, ?_, pollLoop_no_create s name 10 wc⟩
    simp [CreateVolume, createOrReuse, hg, hign, hc, Outcome.after]

/-- C3 on the empty cluster: the Get reports not-found and the run begins
with the Get and the Create of the new record. -/
theorem createVolume_notFound_creates_witness :
    (Cluster.Get ⟨"topolvm", "v1"⟩ emptyCluster).1 =
      Except.error (Error.apiStatus "NotFound" "not found") ∧
    IsNotFound (some (Error.apiStatus "NotFound" "not found")) = true ∧
    ∃ rest : List Call,
      (CreateVolume (Cluster.service "topolvm") "n1" "v1" 10 emptyCluster).calls =
        Call.Get ⟨"topolvm", "v1"⟩ ::
          Call.Create (newLogicalVolume "topolvm" "n1" "v1" 10) :: rest ∧
      (rest.all fun c => !c.isCreate) = true :=
  ⟨rfl, by decide,
    (createVolume_notFound_creates (Cluster.service "topolvm") "n1" "v1" 10 emptyCluster
      (Error.apiStatus "NotFound" "not found") rfl (by decide)).1⟩

/-! ## The cluster keeps what the agent does not write -/

theorem Cluster.settle_objects (w : Cluster) :
    w.settle.objects = w.objects.map (fun lv => { lv with Status := w.agent w.now lv }) := rfl

theorem Cluster.settle_fault (w : Cluster) : w.settle.fault = w.fault := rfl

theorem Cluster.settle_now (w : Cluster) : w.settle.now = w.now + 1 := rfl

theorem Cluster.desiredOf_settle (w : Cluster) :
    Cluster.desiredOf w.settle.objects = Cluster.desiredOf w.objects := by
  simp only [Cluster.desiredOf, Cluster.settle_objects, List.map_map]
  rfl

theorem Cluster.lookup_settle (key : ObjectKey) (w : Cluster) :
    Cluster.lookup key w.settle.objects =
      (Cluster.lookup key w.objects).map (fun lv => { lv with Status := w.agent w.now lv }) := by
  simp only [Cluster.lookup, Cluster.settle_objects, List.find?_map]
  rfl

theorem Cluster.without_settle (key : ObjectKey) (w : Cluster) :
    Cluster.desiredOf (Cluster.without key w.settle.objects) =
      Cluster.desiredOf (Cluster.without key w.objects) := by
  simp only [Cluster.desiredOf, Cluster.without, Cluster.settle_objects, List.filter_map,
    List.map_map]
  rfl

theorem Cluster.desiredOf_without (key : ObjectKey) (l1 l2 : List LogicalVolume)
    (h : Cluster.desiredOf l1 = Cluster.desiredOf l2) :
    Cluster.desiredOf (Cluster.without key l1) = Cluster.desiredOf (Cluster.without key l2) := by
  have e : ∀ l : List LogicalVolume, Cluster.desiredOf (Cluster.without key l) =
      (Cluster.desiredOf l).filter
        (fun d => decide ((⟨d.2.1.Namespace, d.2.1.Name⟩ : ObjectKey) ≠ key)) := by
    intro l
    simp only [Cluster.desiredOf, Cluster.without, List.filter_map]
    rfl
  rw [e l1, e l2, h]

theorem Cluster.lookup_desired (key : ObjectKey) (l1 l2 : List LogicalVolume)
    (h : Cluster.desiredOf l1 = Cluster.desiredOf l2) :
    (Cluster.lookup key l1).map LogicalVolume.desired =
      (Cluster.lookup key l2).map LogicalVolume.desired := by
  have e : ∀ l : List LogicalVolume, (Cluster.lookup key l).map LogicalVolume.desired =
      (Cluster.desiredOf l).find?
        (fun d => decide ((⟨d.2.1.Namespace, d.2.1.Name⟩ : ObjectKey) = key)) := by
    intro l
    simp only [Cluster.desiredOf, Cluster.lookup, List.find?_map]
    rfl
  rw [e l1, e l2, h]

theorem Cluster.under_nil_of_lookup_none (key : ObjectKey) (l : List LogicalVolume)
    (h : Cluster.lookup key l = none) : Cluster.under key l = [] := by
  simp only [Cluster.lookup, List.find?_eq_none] at h
  simp only [Cluster.under, List.filter_eq_nil_iff]
  exact h

theorem Cluster.lookup_none_of_under_nil (key : ObjectKey) (l : List LogicalVolume)
    (h : Cluster.under key l = []) : Cluster.lookup key l = none := by
  simp only [Cluster.under, List.filter_eq_nil_iff] at h
  simp only [Cluster.lookup, List.find?_eq_none]
  exact h

theorem Cluster.under_without (key : ObjectKey) (l : List LogicalVolume) :
    Cluster.under key (Cluster.without key l) = [] := by
  simp [Cluster.under, Cluster.without, List.filter_eq_nil_iff]

/-! ## Polling on the cluster -/

/-- The record a poll reads on the cluster is the first one stored under the
key in the world the poll leaves. -/
theorem Cluster.observed_lookup (ns name : String) (k : Nat) (w : Cluster)
    (lv : LogicalVolume) (h : observed (Cluster.service ns) name k w = Except.ok lv) :
    Cluster.lookup ⟨ns, name⟩ (observedWorld (Cluster.service ns) name k w).objects =
      some lv := by
  have h1 : (Cluster.Get ⟨ns, name⟩ (pollWorld (Cluster.service ns) name k w)).1 =
      Except.ok lv := h
  have h2 := Cluster.get_ok_lookup _ _ _ h1
  have h3 : observedWorld (Cluster.service ns) name k w =
      (Cluster.Get ⟨ns, name⟩ (pollWorld (Cluster.service ns) name k w)).2 := rfl
  rw [h3, Cluster.get_world]
  exact h2

/-- The calls of the create-or-reuse step contain no `Delete`. -/
theorem createOrReuse_no_delete {σ : Type} (s : LogicalVolumeService σ) (node name : String)
    (sizeGb : Int) (w : σ) (pre : List Call) (w1 : σ)
    (h : createOrReuse s node name sizeGb w = Sum.inr (pre, w1)) :
    (pre.all fun c => !c.isDelete) = true := by
  rcases createOrReuse_inr s node name sizeGb w pre w1 h with hp | hp <;>
    · rw [hp]
      rfl

/-! ## C4: the record becomes CREATED -/

/-- C4: once the create-or-reuse step has handed over to polling, if poll
number `k < 10` reads the record in phase CREATED with a non-empty volume ID
and every earlier poll read a record in a phase other than CREATED and
CREATE_FAILED, then CreateVolume returns that volume ID with a nil error, its
calls are those of the first step, `k` Get-and-Sleep pairs and a last Get,
none of them a Delete, and the record read is still the one stored under the
name when the call returns. -/
theorem createVolume_returns_volumeID (ns node name : String) (sizeGb : Int) (w : Cluster)
    (pre : List Call) (w1 : Cluster) (k : Nat) (lv : LogicalVolume)
    (hpre : createOrReuse (Cluster.service ns) node name sizeGb w = Sum.inr (pre, w1))
    (hk : k < 10)
    (hpend : ∀ j, j < k → pending (observed (Cluster.service ns) name j w1) = true)
    (hobs : observed (Cluster.service ns) name k w1 = Except.ok lv)
    (hph : lv.Status.Phase = "CREATED") (hid : lv.Status.VolumeID ≠ "") :
    (CreateVolume (Cluster.service ns) node name sizeGb w).volumeID = lv.Status.VolumeID ∧
    (CreateVolume (Cluster.service ns) node name sizeGb w).err = none ∧
    (CreateVolume (Cluster.service ns) node name sizeGb w).calls =
      pre ++ (pendingCalls ⟨ns, name⟩ k ++ [Call.Get ⟨ns, name⟩]) ∧
    ((CreateVolume (Cluster.service ns) node name sizeGb w).calls.all
      fun c => !c.isDelete) = true ∧
    lv ∈ (CreateVolume (Cluster.service ns) node name sizeGb w).world.objects ∧
    Cluster.lookup ⟨ns, name⟩
      (CreateVolume (Cluster.service ns) node name sizeGb w).world.objects = some lv := by
  have e : 10 = (9 - k) + 1 + k := by omega
  have hrun : CreateVolume (Cluster.service ns) node name sizeGb w =
      ⟨lv.Status.VolumeID, none, pre ++ (pendingCalls ⟨ns, name⟩ k ++ [Call.Get ⟨ns, name⟩]),
        observedWorld (Cluster.service ns) name k w1⟩ := by
    rw [createVolume_of_inr _ _ _ _ _ _ _ hpre, e,
      pollLoop_created (Cluster.service ns) name k (9 - k) w1 lv hpend hobs hph hid]
    rfl
  have hl := Cluster.observed_lookup ns name k w1 lv hobs
  rw [hrun]
  refine ⟨rfl, rfl, rfl, ?_, Cluster.lookup_mem _ _ _ hl, hl⟩
  simp only [List.all_append, Bool.and_eq_true]
  exact ⟨createOrReuse_no_delete _ _ _ _ _ _ _ hpre, pendingCalls_no_delete _ k, rfl⟩

/-- C4, the spec's example: the agent reports CREATED with volume ID `abc`
during the third poll and CreateVolume returns `abc` with a nil error,
leaving the record in the store. -/
theorem createVolume_returns_volumeID_witness :
    createOrReuse (Cluster.service "topolvm") "n1" "v1" 10 createdCluster =
      Sum.inr ([Call.Get ⟨"topolvm", "v1"⟩,
        Call.Create (newLogicalVolume "topolvm" "n1" "v1" 10)], createdStart) ∧
    (2 < 10) ∧
    (∀ j, j < 2 →
      pending (observed (Cluster.service "topolvm") "v1" j createdStart) = true) ∧
    observed (Cluster.service "topolvm") "v1" 2 createdStart = Except.ok createdRecord ∧
    createdRecord.Status.Phase = "CREATED" ∧ createdRecord.Status.VolumeID ≠ "" ∧
    (CreateVolume (Cluster.service "topolvm") "n1" "v1" 10 createdCluster).volumeID = "abc" ∧
    (CreateVolume (Cluster.service "topolvm") "n1" "v1" 10 createdCluster).err = none ∧
    createdRecord ∈
      (CreateVolume (Cluster.service "topolvm") "n1" "v1" 10 createdCluster).world.objects :=
  have hpend : ∀ j, j < 2 →
      pending (observed (Cluster.service "topolvm") "v1" j createdStart) = true := by decide
  have h := createVolume_returns_volumeID "topolvm" "n1" "v1" 10 createdCluster
    [Call.Get ⟨"topolvm", "v1"⟩, Call.Create (newLogicalVolume "topolvm" "n1" "v1" 10)]
    createdStart 2 createdRecord rfl (by decide) hpend rfl rfl (by decide)
  ⟨rfl, by decide, hpend, rfl, rfl, by decide, h.1, h.2.1, h.2.2.2.2.1⟩

/-! ## C8: CREATED without a volume ID -/

/-- C8: once the create-or-reuse step has handed over to polling, if poll
number `k < 10` reads the record in phase CREATED with an empty volume ID and
every earlier poll read a record in a phase other than CREATED and
CREATE_FAILED, then CreateVolume returns the empty volume ID with a non-nil
error (the one made by `errors.New`), issues no Delete, and the record read
is still the one stored under the name when the call returns. -/
theorem createVolume_rejects_empty_volumeID (ns node name : String) (sizeGb : Int) (w : Cluster)
    (pre : List Call) (w1 : Cluster) (k : Nat) (lv : LogicalVolume)
    (hpre : createOrReuse (Cluster.service ns) node name sizeGb w = Sum.inr (pre, w1))
    (hk : k < 10)
    (hpend : ∀ j, j < k → pending (observed (Cluster.service ns) name j w1) = true)
    (hobs : observed (Cluster.service ns) name k w1 = Except.ok lv)
    (hph : lv.Status.Phase = "CREATED") (hid : lv.Status.VolumeID = "") :
    (CreateVolume (Cluster.service ns) node name sizeGb w).volumeID = "" ∧
    (CreateVolume (Cluster.service ns) node name sizeGb w).err =
      some (Error.errorString "VolumeID is empty") ∧
    (CreateVolume (Cluster.service ns) node name sizeGb w).err ≠ none ∧
    ((CreateVolume (Cluster.service ns) node name sizeGb w).calls.all
      fun c => !c.isDelete) = true ∧
    lv ∈ (CreateVolume (Cluster.service ns) node name sizeGb w).world.objects ∧
    Cluster.lookup ⟨ns, name⟩
      (CreateVolume (Cluster.service ns) node name sizeGb w).world.objects = some lv := by
  have e : 10 = (9 - k) + 1 + k := by omega
  have hrun : CreateVolume (Cluster.service ns) node name sizeGb w =
      ⟨"", some (Error.errorString "VolumeID is empty"),
        pre ++ (pendingCalls ⟨ns, name⟩ k ++ [Call.Get ⟨ns, name⟩]),
        observedWorld (Cluster.service ns) name k w1⟩ := by
    rw [createVolume_of_inr _ _ _ _ _ _ _ hpre, e,
      pollLoop_created_empty (Cluster.service ns) name k (9 - k) w1 lv hpend hobs hph hid]
    rfl
  have hl := Cluster.observed_lookup ns name k w1 lv hobs
  rw [hrun]
  refine ⟨rfl, rfl, by simp, ?_, Cluster.lookup_mem _ _ _ hl, hl⟩
  simp only [List.all_append, Bool.and_eq_true]
  exact ⟨createOrReuse_no_delete _ _ _ _ _ _ _ hpre, pendingCalls_no_delete _ k, rfl⟩

/-- C8 on a cluster whose agent reports CREATED during the third poll but
leaves the volume ID empty. -/
theorem createVolume_rejects_empty_volumeID_witness :
    createOrReuse (Cluster.service "topolvm") "n1" "v1" 10 forgetfulCluster =
      Sum.inr ([Call.Get ⟨"topolvm", "v1"⟩,
        Call.Create (newLogicalVolume "topolvm" "n1" "v1" 10)], forgetfulStart) ∧
    (2 < 10) ∧
    (∀ j, j < 2 →
      pending (observed (Cluster.service "topolvm") "v1" j forgetfulStart) = true) ∧
    observed (Cluster.service "topolvm") "v1" 2 forgetfulStart = Except.ok forgetfulRecord ∧
    forgetfulRecord.Status.Phase = "CREATED" ∧ forgetfulRecord.Status.VolumeID = "" ∧
    (CreateVolume (Cluster.service "topolvm") "n1" "v1" 10 forgetfulCluster).volumeID = "" ∧
    (CreateVolume (Cluster.service "topolvm") "n1" "v1" 10 forgetfulCluster).err =
      some (Error.errorString "VolumeID is empty") ∧
    forgetfulRecord ∈
      (CreateVolume (Cluster.service "topolvm") "n1" "v1" 10 forgetfulCluster).world.objects :=
  have hpend : ∀ j, j < 2 →
      pending (observed (Cluster.service "topolvm") "v1" j forgetfulStart) = true := by decide
  have h := createVolume_rejects_empty_volumeID "topolvm" "n1" "v1" 10 forgetfulCluster
    [Call.Get ⟨"topolvm", "v1"⟩, Call.Create (newLogicalVolume "topolvm" "n1" "v1" 10)]
    forgetfulStart 2 forgetfulRecord rfl (by decide) hpend rfl rfl rfl
  ⟨rfl, by decide, hpend, rfl, rfl, rfl, h.1, h.2.1, h.2.2.2.2.1⟩

/-! ## What the create-or-reuse step leaves in the cluster -/

theorem Cluster.sleep_objects (ns : String) (seconds : Nat) (w : Cluster) :
    ((Cluster.service ns).timeSleep seconds w).objects = w.objects := rfl

theorem Cluster.pollWorld_succ (ns name : String) (k : Nat) (w : Cluster) :
    pollWorld (Cluster.service ns) name (k + 1) w =
      pollWorld (Cluster.service ns) name k ((Cluster.service ns).timeSleep 1 w.settle) := by
  show pollWorld (Cluster.service ns) name k
    ((Cluster.service ns).timeSleep 1 (Cluster.Get ⟨ns, name⟩ w).2) = _
  rw [Cluster.get_world]

/-- Polls that go on leave every record in place, up to its status. -/
theorem Cluster.desiredOf_pollWorld (ns name : String) :
    ∀ (k : Nat) (w : Cluster),
      Cluster.desiredOf (pollWorld (Cluster.service ns) name k w).objects =
        Cluster.desiredOf w.objects := by
  intro k
  induction k with
  | zero => intro w; rfl
  | succ k ih =>
    intro w
    rw [Cluster.pollWorld_succ, ih, Cluster.sleep_objects, Cluster.desiredOf_settle]

/-- A poll leaves every record in place, up to its status. -/
theorem Cluster.desiredOf_observedWorld (ns name : String) (k : Nat) (w : Cluster) :
    Cluster.desiredOf (observedWorld (Cluster.service ns) name k w).objects =
      Cluster.desiredOf w.objects := by
  have h : observedWorld (Cluster.service ns) name k w =
      (Cluster.Get ⟨ns, name⟩ (pollWorld (Cluster.service ns) name k w)).2 := rfl
  rw [h, Cluster.get_world, Cluster.desiredOf_settle, Cluster.desiredOf_pollWorld]

/-- A served `Get` that finds a compatible record hands over to polling with
no other call. -/
theorem Cluster.createOrReuse_found (ns node name : String) (sizeGb : Int) (w : Cluster)
    (lv : LogicalVolume) (hf : w.fault w.now = none)
    (hl : Cluster.lookup ⟨ns, name⟩ w.objects = some lv)
    (hnode : lv.Spec.NodeName = node) (hsize : lv.Spec.Size.Value = shl30 sizeGb) :
    createOrReuse (Cluster.service ns) node name sizeGb w =
      Sum.inr ([Call.Get ⟨ns, name⟩], w.settle) := by
  have hl2 := Cluster.lookup_settle ⟨ns, name⟩ w
  rw [hl] at hl2
  simp only [Option.map_some'] at hl2
  have hg : (Cluster.service ns).k8sClient.Get ⟨ns, name⟩ w =
      (Except.ok { lv with Status := w.agent w.now lv }, w.settle) := by
    show Cluster.Get ⟨ns, name⟩ w = _
    simp [Cluster.Get, hf, hl2]
  have hns : (Cluster.service ns).namespace_ = ns := rfl
  simp [createOrReuse, hns, hg, hnode, hsize]

/-- After the create-or-reuse step has handed over, the first record under
the name has the node and size of the request. -/
theorem Cluster.createOrReuse_stored (ns node name : String) (sizeGb : Int) (w : Cluster)
    (pre : List Call) (w1 : Cluster)
    (h : createOrReuse (Cluster.service ns) node name sizeGb w = Sum.inr (pre, w1)) :
    ∃ lv0, Cluster.lookup ⟨ns, name⟩ w1.objects = some lv0 ∧
      lv0.Spec.NodeName = node ∧ lv0.Spec.Size.Value = shl30 sizeGb := by
  have hns : (Cluster.service ns).namespace_ = ns := rfl
  have hcl : (Cluster.service ns).k8sClient = Cluster.client := rfl
  rcases hg : Cluster.Get ⟨ns, name⟩ w with ⟨r, wg⟩
  have hwg : wg = w.settle := by
    have := Cluster.get_world ⟨ns, name⟩ w
    rw [hg] at this
    exact this
  have hg1 : (Cluster.Get ⟨ns, name⟩ w).1 = r := by rw [hg]
  simp only [createOrReuse, hns, hcl, Cluster.client, hg] at h
  cases r with
  | error e =>
    simp only at h
    split at h
    · cases h
    · rcases hc : Cluster.Create (newLogicalVolume ns node name sizeGb) wg with ⟨ce, wc⟩
      simp only [hc] at h
      cases ce with
      | some e2 => cases h
      | none =>
        simp only [Sum.inr.injEq, Prod.mk.injEq] at h
        rcases h with ⟨_, hw⟩
        subst hw
        refine ⟨newLogicalVolume ns node name sizeGb, ?_, rfl, rfl⟩
        unfold Cluster.Create at hc
        cases hfa : wg.fault wg.now with
        | some e3 => simp [hfa] at hc
        | none =>
          have hk : (newLogicalVolume ns node name sizeGb).key = ⟨ns, name⟩ := rfl
          cases hlk : Cluster.lookup ⟨ns, name⟩ wg.settle.objects with
          | some lv2 => simp [hfa, hk, hlk] at hc
          | none =>
            simp only [hfa, hk, hlk, Prod.mk.injEq, true_and] at hc
            rw [← hc]
            simp only [Cluster.lookup, List.find?_append] at hlk ⊢
            rw [hlk]
            simp [hk]
  | ok lv =>
    simp only at h
    split at h
    · cases h
    · rename_i hcompat
      simp only [Sum.inr.injEq, Prod.mk.injEq] at h
      rcases h with ⟨_, hw⟩
      subst hw
      have hl := Cluster.get_ok_lookup ⟨ns, name⟩ w lv hg1
      rw [hwg]
      refine ⟨lv, hl, ?_, ?_⟩
      · by_contra hne
        exact hcompat (Or.inl hne)
      · by_contra hne
        exact hcompat (Or.inr hne)

/-- A run that found a compatible record issues no `Create`. -/
theorem createVolume_found_no_create {σ : Type} (s : LogicalVolumeService σ)
    (node name : String) (sizeGb : Int) (w w1 : σ)
    (h : createOrReuse s node name sizeGb w = Sum.inr ([Call.Get ⟨s.namespace_, name⟩], w1)) :
    ((CreateVolume s node name sizeGb w).calls.all fun c => !c.isCreate) = true := by
  rw [createVolume_of_inr _ _ _ _ _ _ _ h, after_calls]
  simp only [List.all_append, Bool.and_eq_true]
  exact ⟨rfl, pollLoop_no_create s name 10 w1⟩

/-! ## C7: the record stays INITIAL -/

/-- The world of poll `k + 1` is the world poll `k` left, one second later. -/
theorem pollWorld_succ_right {σ : Type} (s : LogicalVolumeService σ) (name : String) :
    ∀ (k : Nat) (w : σ),
      pollWorld s name (k + 1) w = s.timeSleep 1 (observedWorld s name k w) := by
  intro k
  induction k with
  | zero => intro w; rfl
  | succ k ih =>
    intro w
    show pollWorld s name (k + 1) (s.timeSleep 1 (s.k8sClient.Get ⟨s.namespace_, name⟩ w).2) = _
    rw [ih]
    rfl

/-- A record read in phase INITIAL lets the loop go on. -/
theorem pending_of_initial (r : Except Error LogicalVolume)
    (h : inPhase "INITIAL" r = true) : pending r = true := by
  cases r with
  | error e => simp [inPhase] at h
  | ok lv =>
    simp only [inPhase, decide_eq_true_eq] at h
    simp only [pending, h]
    decide

/-- The record read by a poll on the cluster has the node and size that the
first record under the name had when polling began. -/
theorem Cluster.observed_spec (ns name : String) (k : Nat) (w1 : Cluster)
    (lv lv0 : LogicalVolume)
    (hobs : observed (Cluster.service ns) name k w1 = Except.ok lv)
    (h0 : Cluster.lookup ⟨ns, name⟩ w1.objects = some lv0) : lv.Spec = lv0.Spec := by
  have hl := Cluster.observed_lookup ns name k w1 lv hobs
  have hd := Cluster.lookup_desired ⟨ns, name⟩ _ _
    (Cluster.desiredOf_observedWorld ns name k w1)
  rw [hl, h0] at hd
  simp only [Option.map_some', Option.some.injEq, LogicalVolume.desired, Prod.mk.injEq] at hd
  exact hd.2.2

/-- C7: once the create-or-reuse step has handed over to polling, if all ten
polls read the record in phase INITIAL, then CreateVolume returns the empty
volume ID with the non-nil error `timed out`; after the calls of the first
step it issues ten Get-and-Sleep pairs, so ten polling Gets and no Delete;
the record read by the last poll is still the one stored under the name, in
phase INITIAL and with the node and size of the request, and every record is
where it was up to its status; and a CreateVolume with the same arguments
started in the world left behind, if its Get is served, finds that record
compatible, hands over to polling after the single Get and issues no
Create. -/
theorem createVolume_timeout (ns node name : String) (sizeGb : Int) (w : Cluster)
    (pre : List Call) (w1 : Cluster)
    (hpre : createOrReuse (Cluster.service ns) node name sizeGb w = Sum.inr (pre, w1))
    (hinit : ∀ j, j < 10 →
      inPhase "INITIAL" (observed (Cluster.service ns) name j w1) = true) :
    (CreateVolume (Cluster.service ns) node name sizeGb w).volumeID = "" ∧
    (CreateVolume (Cluster.service ns) node name sizeGb w).err =
      some (Error.errorString "timed out") ∧
    (CreateVolume (Cluster.service ns) node name sizeGb w).calls =
      pre ++ pendingCalls ⟨ns, name⟩ 10 ∧
    ((CreateVolume (Cluster.service ns) node name sizeGb w).calls.drop pre.length).countP
      Call.isGet = 10 ∧
    ((CreateVolume (Cluster.service ns) node name sizeGb w).calls.all
      fun c => !c.isDelete) = true ∧
    (∃ lv, observed (Cluster.service ns) name 9 w1 = Except.ok lv ∧
      Cluster.lookup ⟨ns, name⟩
        (CreateVolume (Cluster.service ns) node name sizeGb w).world.objects = some lv ∧
      lv.Status.Phase = "INITIAL" ∧ lv.Spec.NodeName = node ∧
      lv.Spec.Size.Value = shl30 sizeGb) ∧
    Cluster.desiredOf (CreateVolume (Cluster.service ns) node name sizeGb w).world.objects =
      Cluster.desiredOf w1.objects ∧
    ((CreateVolume (Cluster.service ns) node name sizeGb w).world.fault
        (CreateVolume (Cluster.service ns) node name sizeGb w).world.now = none →
      createOrReuse (Cluster.service ns) node name sizeGb
          (CreateVolume (Cluster.service ns) node name sizeGb w).world =
        Sum.inr ([Call.Get ⟨ns, name⟩],
          (CreateVolume (Cluster.service ns) node name sizeGb w).world.settle) ∧
      ((CreateVolume (Cluster.service ns) node name sizeGb
          (CreateVolume (Cluster.service ns) node name sizeGb w).world).calls.all
        fun c => !c.isCreate) = true) := by
  have hpend : ∀ j, j < 10 → pending (observed (Cluster.service ns) name j w1) = true :=
    fun j hj => pending_of_initial _ (hinit j hj)
  have hrun : CreateVolume (Cluster.service ns) node name sizeGb w =
      ⟨"", some (Error.errorString "timed out"), pre ++ pendingCalls ⟨ns, name⟩ 10,
        (Cluster.service ns).timeSleep 1 (observedWorld (Cluster.service ns) name 9 w1)⟩ := by
    rw [createVolume_of_inr _ _ _ _ _ _ _ hpre,
      pollLoop_timeout (Cluster.service ns) name 10 w1 hpend, pollWorld_succ_right]
    rfl
  have h9 := hinit 9 (by decide)
  rcases hobs : observed (Cluster.service ns) name 9 w1 with e | lv
  · rw [hobs] at h9
    simp [inPhase] at h9
  rw [hobs] at h9
  simp only [inPhase, decide_eq_true_eq] at h9
  have hl := Cluster.observed_lookup ns name 9 w1 lv hobs
  rcases Cluster.createOrReuse_stored ns node name sizeGb w pre w1 hpre with ⟨lv0, h0, hn0, hs0⟩
  have hspec := Cluster.observed_spec ns name 9 w1 lv lv0 hobs h0
  have hnode : lv.Spec.NodeName = node := by rw [hspec]; exact hn0
  have hsize : lv.Spec.Size.Value = shl30 sizeGb := by rw [hspec]; exact hs0
  rw [hrun]
  refine ⟨rfl, rfl, rfl, ?_, ?_, ⟨lv, rfl, hl, h9, hnode, hsize⟩, ?_, ?_⟩
  · simp only [List.drop_left]
    exact pendingCalls_count_get _ 10
  · simp only [List.all_append, Bool.and_eq_true]
    exact ⟨createOrReuse_no_delete _ _ _ _ _ _ _ hpre, pendingCalls_no_delete _ 10⟩
  · exact Cluster.desiredOf_observedWorld ns name 9 w1
  · intro hf
    have hfound := Cluster.createOrReuse_found ns node name sizeGb
      ((Cluster.service ns).timeSleep 1 (observedWorld (Cluster.service ns) name 9 w1))
      lv hf hl hnode hsize
    exact ⟨hfound, createVolume_found_no_create _ _ _ _ _ _ hfound⟩

/-- C7 on a cluster whose agent writes nothing: the first call creates `v1`,
times out after ten polls and leaves the record; the retry finds it and
issues no Create, and the store holds the one record the first call
created. -/
theorem createVolume_timeout_witness :
    createOrReuse (Cluster.service "topolvm") "n1" "v1" 10 emptyCluster =
      Sum.inr ([Call.Get ⟨"topolvm", "v1"⟩,
        Call.Create (newLogicalVolume "topolvm" "n1" "v1" 10)], idleStart) ∧
    (∀ j, j < 10 →
      inPhase "INITIAL" (observed (Cluster.service "topolvm") "v1" j idleStart) = true) ∧
    (CreateVolume (Cluster.service "topolvm") "n1" "v1" 10 emptyCluster).err =
      some (Error.errorString "timed out") ∧
    (CreateVolume (Cluster.service "topolvm") "n1" "v1" 10 emptyCluster).world.objects =
      [newLogicalVolume "topolvm" "n1" "v1" 10] ∧
    ((CreateVolume (Cluster.service "topolvm") "n1" "v1" 10
        (CreateVolume (Cluster.service "topolvm") "n1" "v1" 10 emptyCluster).world).calls.all
      fun c => !c.isCreate) = true :=
  have hinit : ∀ j, j < 10 →
      inPhase "INITIAL" (observed (Cluster.service "topolvm") "v1" j idleStart) = true := by
    decide
  have h := createVolume_timeout "topolvm" "n1" "v1" 10 emptyCluster
    [Call.Get ⟨"topolvm", "v1"⟩, Call.Create (newLogicalVolume "topolvm" "n1" "v1" 10)]
    idleStart rfl hinit
  ⟨rfl, hinit, h.2.1, by decide, (h.2.2.2.2.2.2.2 rfl).2⟩

/-! ## C9: the record becomes CREATE_FAILED -/

/-- A `Delete` that the cluster serves without error removes every record
under the key. -/
theorem Cluster.delete_ok (lv : LogicalVolume) (w : Cluster)
    (h : (Cluster.Delete lv w).1 = none) :
    (Cluster.Delete lv w).2.objects = Cluster.without lv.key w.settle.objects := by
  unfold Cluster.Delete at h ⊢
  cases hf : w.fault w.now with
  | some e => simp [hf] at h
  | none =>
    cases hl : Cluster.lookup lv.key w.settle.objects with
    | none => simp [hf, hl] at h
    | some lv2 => rfl

/-- On a cluster with no record under the name, whose next two calls are
served, the create-or-reuse step issues the Get and the Create of the new
record, which is then the only record under the name. -/
theorem Cluster.createOrReuse_absent (ns node name : String) (sizeGb : Int) (w : Cluster)
    (hf0 : w.fault w.now = none) (hf1 : w.fault (w.now + 1) = none)
    (habs : Cluster.under ⟨ns, name⟩ w.objects = []) :
    ∃ w3, createOrReuse (Cluster.service ns) node name sizeGb w =
        Sum.inr ([Call.Get ⟨ns, name⟩,
          Call.Create (newLogicalVolume ns node name sizeGb)], w3) ∧
      Cluster.lookup ⟨ns, name⟩ w3.objects = some (newLogicalVolume ns node name sizeGb) ∧
      Cluster.under ⟨ns, name⟩ w3.objects = [newLogicalVolume ns node name sizeGb] := by
  have hk : (newLogicalVolume ns node name sizeGb).key = ⟨ns, name⟩ := rfl
  have hl0 : Cluster.lookup ⟨ns, name⟩ w.objects = none :=
    Cluster.lookup_none_of_under_nil _ _ habs
  have hl1 : Cluster.lookup ⟨ns, name⟩ w.settle.objects = none := by
    rw [Cluster.lookup_settle, hl0]
    rfl
  have hl2 : Cluster.lookup ⟨ns, name⟩ w.settle.settle.objects = none := by
    rw [Cluster.lookup_settle, hl1]
    rfl
  have hu2 : Cluster.under ⟨ns, name⟩ w.settle.settle.objects = [] :=
    Cluster.under_nil_of_lookup_none _ _ hl2
  have hg : (Cluster.service ns).k8sClient.Get ⟨ns, name⟩ w =
      (Except.error (Error.apiStatus "NotFound" "not found"), w.settle) := by
    show Cluster.Get ⟨ns, name⟩ w = _
    simp [Cluster.Get, hf0, hl1]
  have hc : (Cluster.service ns).k8sClient.Create (newLogicalVolume ns node name sizeGb)
      w.settle = (none, { w.settle.settle with
        objects := w.settle.settle.objects ++ [newLogicalVolume ns node name sizeGb] }) := by
    show Cluster.Create (newLogicalVolume ns node name sizeGb) w.settle = _
    have hf1s : w.settle.fault w.settle.now = none := hf1
    simp [Cluster.Create, hf1s, hk, hl2]
  have hns : (Cluster.service ns).namespace_ = ns := rfl
  have hign : IgnoreNotFound (some (Error.apiStatus "NotFound" "not found")) = none := by
    decide
  refine ⟨{ w.settle.settle with
      objects := w.settle.settle.objects ++ [newLogicalVolume ns node name sizeGb] },
    ?_, ?_, ?_⟩
  · simp [createOrReuse, hns, hg, hign, hc]
  · show Cluster.lookup ⟨ns, name⟩
      (w.settle.settle.objects ++ [newLogicalVolume ns node name sizeGb]) = _
    simp only [Cluster.lookup, List.find?_append] at hl2 ⊢
    rw [hl2]
    simp [hk]
  · show Cluster.under ⟨ns, name⟩
      (w.settle.settle.objects ++ [newLogicalVolume ns node name sizeGb]) = _
    simp only [Cluster.under, List.filter_append] at hu2 ⊢
    rw [hu2]
    simp [hk]

/-- C9: once the create-or-reuse step has handed over to polling, if poll
number `k < 10` reads the record in phase CREATE_FAILED and every earlier
poll read a record in a phase other than CREATED and CREATE_FAILED, then the
last call of CreateVolume is a Delete of the record read, and it is the only
Delete; when the cluster serves that Delete without error, no record is left
under the name, and a CreateVolume for the same name with any node and size,
started in the world left behind with its Get and Create served, takes the
not-found path: it creates the new record in phase INITIAL, which is then
the only record under the name. -/
theorem createVolume_failed_deletes (ns node name : String) (sizeGb : Int) (w : Cluster)
    (pre : List Call) (w1 : Cluster) (k : Nat) (lv : LogicalVolume)
    (hpre : createOrReuse (Cluster.service ns) node name sizeGb w = Sum.inr (pre, w1))
    (hk : k < 10)
    (hpend : ∀ j, j < k → pending (observed (Cluster.service ns) name j w1) = true)
    (hobs : observed (Cluster.service ns) name k w1 = Except.ok lv)
    (hph : lv.Status.Phase = "CREATE_FAILED") :
    (CreateVolume (Cluster.service ns) node name sizeGb w).calls =
      pre ++ (pendingCalls ⟨ns, name⟩ k ++ [Call.Get ⟨ns, name⟩, Call.Delete lv]) ∧
    (CreateVolume (Cluster.service ns) node name sizeGb w).calls.countP Call.isDelete = 1 ∧
    (CreateVolume (Cluster.service ns) node name sizeGb w).world =
      (Cluster.Delete lv (observedWorld (Cluster.service ns) name k w1)).2 ∧
    ((Cluster.Delete lv (observedWorld (Cluster.service ns) name k w1)).1 = none →
      Cluster.under ⟨ns, name⟩
        (CreateVolume (Cluster.service ns) node name sizeGb w).world.objects = [] ∧
      ∀ (node2 : String) (size2 : Int),
        (CreateVolume (Cluster.service ns) node name sizeGb w).world.fault
          (CreateVolume (Cluster.service ns) node name sizeGb w).world.now = none →
        (CreateVolume (Cluster.service ns) node name sizeGb w).world.fault
          ((CreateVolume (Cluster.service ns) node name sizeGb w).world.now + 1) = none →
        ∃ w3, createOrReuse (Cluster.service ns) node2 name size2
            (CreateVolume (Cluster.service ns) node name sizeGb w).world =
            Sum.inr ([Call.Get ⟨ns, name⟩,
              Call.Create (newLogicalVolume ns node2 name size2)], w3) ∧
          Cluster.under ⟨ns, name⟩ w3.objects = [newLogicalVolume ns node2 name size2] ∧
          (newLogicalVolume ns node2 name size2).Status.Phase = "INITIAL") := by
  have e : 10 = (9 - k) + 1 + k := by omega
  have hrun : CreateVolume (Cluster.service ns) node name sizeGb w =
      ⟨"", status.Error lv.Status.Code lv.Status.Message,
        pre ++ (pendingCalls ⟨ns, name⟩ k ++ [Call.Get ⟨ns, name⟩, Call.Delete lv]),
        (Cluster.Delete lv (observedWorld (Cluster.service ns) name k w1)).2⟩ := by
    rw [createVolume_of_inr _ _ _ _ _ _ _ hpre, e,
      pollLoop_failed (Cluster.service ns) name k (9 - k) w1 lv hpend hobs hph]
    rfl
  have hkey : lv.key = ⟨ns, name⟩ :=
    Cluster.lookup_key _ _ _ (Cluster.observed_lookup ns name k w1 lv hobs)
  have hnd_pre : pre.countP Call.isDelete = 0 := by
    rcases createOrReuse_inr _ _ _ _ _ _ _ hpre with hp | hp <;>
      · rw [hp]
        rfl
  have hnd_pend : (pendingCalls ⟨ns, name⟩ k).countP Call.isDelete = 0 := by
    rw [List.countP_eq_zero]
    intro c hc
    have := List.all_eq_true.mp (pendingCalls_no_delete ⟨ns, name⟩ k) c hc
    simpa using this
  rw [hrun]
  refine ⟨rfl, ?_, rfl, ?_⟩
  · simp only [List.countP_append, hnd_pre, hnd_pend]
    rfl
  · intro hdel
    have hobj := Cluster.delete_ok lv _ hdel
    rw [hkey] at hobj
    have hunder : Cluster.under ⟨ns, name⟩
        (Cluster.Delete lv (observedWorld (Cluster.service ns) name k w1)).2.objects = [] := by
      rw [hobj]
      exact Cluster.under_without _ _
    refine ⟨hunder, ?_⟩
    intro node2 size2 hf0 hf1
    rcases Cluster.createOrReuse_absent ns node2 name size2 _ hf0 hf1 hunder
      with ⟨w3, h1, _, h3⟩
    exact ⟨w3, h1, h3, rfl⟩

/-- C9, the spec's example: the agent reports CREATE_FAILED during the third
poll; CreateVolume deletes the record, none is left under `v1`, and a new
request for `v1` on node `n2` with 20 GB creates a fresh record. -/
theorem createVolume_failed_deletes_witness :
    createOrReuse (Cluster.service "topolvm") "n1" "v1" 10 failingCluster =
      Sum.inr ([Call.Get ⟨"topolvm", "v1"⟩,
        Call.Create (newLogicalVolume "topolvm" "n1" "v1" 10)], failingStart) ∧
    (2 < 10) ∧
    (∀ j, j < 2 →
      pending (observed (Cluster.service "topolvm") "v1" j failingStart) = true) ∧
    observed (Cluster.service "topolvm") "v1" 2 failingStart = Except.ok failingRecord ∧
    failingRecord.Status.Phase = "CREATE_FAILED" ∧
    (CreateVolume (Cluster.service "topolvm") "n1" "v1" 10 failingCluster).calls.countP
      Call.isDelete = 1 ∧
    Cluster.under ⟨"topolvm", "v1"⟩
      (CreateVolume (Cluster.service "topolvm") "n1" "v1" 10 failingCluster).world.objects =
      [] ∧
    ∃ w3, createOrReuse (Cluster.service "topolvm") "n2" "v1" 20
        (CreateVolume (Cluster.service "topolvm") "n1" "v1" 10 failingCluster).world =
        Sum.inr ([Call.Get ⟨"topolvm", "v1"⟩,
          Call.Create (newLogicalVolume "topolvm" "n2" "v1" 20)], w3) ∧
      Cluster.under ⟨"topolvm", "v1"⟩ w3.objects = [newLogicalVolume "topolvm" "n2" "v1" 20] ∧
      (newLogicalVolume "topolvm" "n2" "v1" 20).Status.Phase = "INITIAL" :=
  have hpend : ∀ j, j < 2 →
      pending (observed (Cluster.service "topolvm") "v1" j failingStart) = true := by decide
  have h := createVolume_failed_deletes "topolvm" "n1" "v1" 10 failingCluster
    [Call.Get ⟨"topolvm", "v1"⟩, Call.Create (newLogicalVolume "topolvm" "n1" "v1" 10)]
    failingStart 2 failingRecord rfl (by decide) hpend rfl rfl
  ⟨rfl, by decide, hpend, rfl, rfl, h.2.1, (h.2.2.2 rfl).1,
    (h.2.2.2 rfl).2 "n2" 20 rfl rfl⟩

/-! ## C5: the failure reported by the agent is passed through -/

/-- C5 fails for the code OK: the record `v1` is found in phase CREATE_FAILED
with code OK and message `disk full` by the first poll, and CreateVolume
returns a nil error. -/
theorem createVolume_failed_ok_code_nil :
    observed (Cluster.service "topolvm") "v1" 0
      (Cluster.Get ⟨"topolvm", "v1"⟩ okFailedCluster).2 = Except.ok okFailedRecord ∧
    okFailedRecord.Status.Phase = "CREATE_FAILED" ∧
    okFailedRecord.Status.Code = codes.OK ∧
    okFailedRecord.Status.Message = "disk full" ∧
    (CreateVolume (Cluster.service "topolvm") "n1" "v1" 10 okFailedCluster).err = none :=
  ⟨rfl, rfl, rfl, rfl, by decide⟩

/-- C5, amended: for every client, every status code `c` other than OK and
every message `m`, once the create-or-reuse step has handed over to polling,
if poll number `k < 10` reads the record in phase CREATE_FAILED with code `c`
and message `m` and every earlier poll read a record in a phase other than
CREATED and CREATE_FAILED, then CreateVolume returns the empty volume ID and a
non-nil error whose status code is `c` and whose message is `m`. -/
theorem createVolume_failed_passthrough {σ : Type} (s : LogicalVolumeService σ)
    (node name : String) (sizeGb : Int) (w : σ) (pre : List Call) (w1 : σ) (k : Nat)
    (lv : LogicalVolume) (c : Code) (m : String)
    (hpre : createOrReuse s node name sizeGb w = Sum.inr (pre, w1))
    (hk : k < 10)
    (hpend : ∀ j, j < k → pending (observed s name j w1) = true)
    (hobs : observed s name k w1 = Except.ok lv)
    (hph : lv.Status.Phase = "CREATE_FAILED")
    (hc : lv.Status.Code = c) (hm : lv.Status.Message = m) (hok : c ≠ codes.OK) :
    (CreateVolume s node name sizeGb w).volumeID = "" ∧
    (CreateVolume s node name sizeGb w).err = some (Error.statusError c m) ∧
    (CreateVolume s node name sizeGb w).err ≠ none ∧
    status.Code (CreateVolume s node name sizeGb w).err = c ∧
    status.Message (CreateVolume s node name sizeGb w).err = m := by
  have e : 10 = (9 - k) + 1 + k := by omega
  have herr : status.Error c m = some (Error.statusError c m) := by
    simp [status.Error, hok]
  have hrun : CreateVolume s node name sizeGb w =
      ⟨"", some (Error.statusError c m),
        pre ++ (pendingCalls ⟨s.namespace_, name⟩ k ++
          [Call.Get ⟨s.namespace_, name⟩, Call.Delete lv]),
        (s.k8sClient.Delete lv (observedWorld s name k w1)).2⟩ := by
    rw [createVolume_of_inr _ _ _ _ _ _ _ hpre, e,
      pollLoop_failed s name k (9 - k) w1 lv hpend hobs hph, hc, hm, herr]
    rfl
  rw [hrun]
  exact ⟨rfl, rfl, by simp, rfl, rfl⟩

/-- C5, the spec's example: code Internal and message `disk full`. -/
theorem createVolume_failed_passthrough_witness :
    createOrReuse (Cluster.service "topolvm") "n1" "v1" 10 failingCluster =
      Sum.inr ([Call.Get ⟨"topolvm", "v1"⟩,
        Call.Create (newLogicalVolume "topolvm" "n1" "v1" 10)], failingStart) ∧
    (2 < 10) ∧
    (∀ j, j < 2 →
      pending (observed (Cluster.service "topolvm") "v1" j failingStart) = true) ∧
    observed (Cluster.service "topolvm") "v1" 2 failingStart = Except.ok failingRecord ∧
    failingRecord.Status.Phase = "CREATE_FAILED" ∧
    failingRecord.Status.Code = codes.Internal ∧
    failingRecord.Status.Message = "disk full" ∧
    codes.Internal ≠ codes.OK ∧
    (CreateVolume (Cluster.service "topolvm") "n1" "v1" 10 failingCluster).volumeID = "" ∧
    (CreateVolume (Cluster.service "topolvm") "n1" "v1" 10 failingCluster).err =
      some (Error.statusError codes.Internal "disk full") :=
  have hpend : ∀ j, j < 2 →
      pending (observed (Cluster.service "topolvm") "v1" j failingStart) = true := by decide
  have h := createVolume_failed_passthrough (Cluster.service "topolvm") "n1" "v1" 10
    failingCluster
    [Call.Get ⟨"topolvm", "v1"⟩, Call.Create (newLogicalVolume "topolvm" "n1" "v1" 10)]
    failingStart 2 failingRecord codes.Internal "disk full" rfl (by decide) hpend rfl rfl
    rfl rfl (by decide)
  ⟨rfl, by decide, hpend, rfl, rfl, rfl, rfl, by decide, h.1, h.2.1⟩

/-! ## C6: either a volume ID or an error -/

/-- C6 fails on the code: the agent sets the phase of the new record `v1` to
CREATE_FAILED and leaves its code at zero, which is OK; the third poll reads
it and CreateVolume returns the empty volume ID together with a nil error. -/
theorem createVolume_empty_id_nil_error :
    (CreateVolume (Cluster.service "topolvm") "n1" "v1" 10 zeroCodeCluster).volumeID = "" ∧
    (CreateVolume (Cluster.service "topolvm") "n1" "v1" 10 zeroCodeCluster).err = none := by
  decide

/-! ## C10: the outcome of the Delete does not reach the caller -/

/-- The create-or-reuse step never calls `Delete`. -/
theorem createOrReuse_withDelete {σ : Type} (s : LogicalVolumeService σ)
    (d : LogicalVolume → σ → Option Error × σ) (node name : String) (sizeGb : Int) (w : σ) :
    createOrReuse (withDelete s d) node name sizeGb w = createOrReuse s node name sizeGb w :=
  rfl

/-- The loop returns the same result and issues the same calls whatever
`Delete` does. -/
theorem pollLoop_withDelete {σ : Type} (s : LogicalVolumeService σ)
    (d : LogicalVolume → σ → Option Error × σ) (name : String) :
    ∀ (n : Nat) (w : σ),
      (pollLoop (withDelete s d) name n w).volumeID = (pollLoop s name n w).volumeID ∧
      (pollLoop (withDelete s d) name n w).err = (pollLoop s name n w).err ∧
      (pollLoop (withDelete s d) name n w).calls = (pollLoop s name n w).calls := by
  intro n
  induction n with
  | zero => intro w; exact ⟨rfl, rfl, rfl⟩
  | succ n ih =>
    intro w
    cases hr : (s.k8sClient.Get ⟨s.namespace_, name⟩ w).1 with
    | error e =>
      have hr2 : ((withDelete s d).k8sClient.Get
          ⟨(withDelete s d).namespace_, name⟩ w).1 = Except.error e := hr
      rw [pollLoop_step_error s name n w e hr,
        pollLoop_step_error (withDelete s d) name n w e hr2]
      exact ⟨rfl, rfl, rfl⟩
    | ok lv =>
      have hr2 : ((withDelete s d).k8sClient.Get
          ⟨(withDelete s d).namespace_, name⟩ w).1 = Except.ok lv := hr
      by_cases h1 : lv.Status.Phase = "CREATED"
      · by_cases h2 : lv.Status.VolumeID = ""
        · rw [pollLoop_step_created_empty s name n w lv hr h1 h2,
            pollLoop_step_created_empty (withDelete s d) name n w lv hr2 h1 h2]
          exact ⟨rfl, rfl, rfl⟩
        · rw [pollLoop_step_created s name n w lv hr h1 h2,
            pollLoop_step_created (withDelete s d) name n w lv hr2 h1 h2]
          exact ⟨rfl, rfl, rfl⟩
      · by_cases h3 : lv.Status.Phase = "CREATE_FAILED"
        · rw [pollLoop_step_failed s name n w lv hr h3,
            pollLoop_step_failed (withDelete s d) name n w lv hr2 h3]
          exact ⟨rfl, rfl, rfl⟩
        · have hp : pending (s.k8sClient.Get ⟨s.namespace_, name⟩ w).1 = true := by
            rw [hr]
            simp [pending, h1, h3]
          have hp2 : pending ((withDelete s d).k8sClient.Get
              ⟨(withDelete s d).namespace_, name⟩ w).1 = true := hp
          rw [pollLoop_step_pending s name n w hp,
            pollLoop_step_pending (withDelete s d) name n w hp2]
          have := ih (s.timeSleep 1 (s.k8sClient.Get ⟨s.namespace_, name⟩ w).2)
          exact ⟨this.1, this.2.1,
            congrArg (fun c => [Call.Get ⟨s.namespace_, name⟩, Call.Sleep 1] ++ c) this.2.2⟩

/-- When the loop issues a `Delete`, what it returns is the empty volume ID
and the status error built from the record it deletes. -/
theorem pollLoop_delete_err {σ : Type} (s : LogicalVolumeService σ) (name : String) :
    ∀ (n : Nat) (w : σ) (lv : LogicalVolume), Call.Delete lv ∈ (pollLoop s name n w).calls →
      (pollLoop s name n w).volumeID = "" ∧
      (pollLoop s name n w).err = status.Error lv.Status.Code lv.Status.Message := by
  intro n
  induction n with
  | zero =>
    intro w lv h
    exact absurd h (List.not_mem_nil _)
  | succ n ih =>
    intro w lv
    cases hr : (s.k8sClient.Get ⟨s.namespace_, name⟩ w).1 with
    | error e =>
      rw [pollLoop_step_error s name n w e hr]
      intro h
      simp at h
    | ok lv2 =>
      by_cases h1 : lv2.Status.Phase = "CREATED"
      · by_cases h2 : lv2.Status.VolumeID = ""
        · rw [pollLoop_step_created_empty s name n w lv2 hr h1 h2]
          intro h
          simp at h
        · rw [pollLoop_step_created s name n w lv2 hr h1 h2]
          intro h
          simp at h
      · by_cases h3 : lv2.Status.Phase = "CREATE_FAILED"
        · rw [pollLoop_step_failed s name n w lv2 hr h3]
          intro h
          simp only [List.mem_cons, List.mem_singleton, Call.Delete.injEq, false_or,
            List.mem_nil_iff, or_false, reduceCtorEq] at h
          rw [h]
          exact ⟨rfl, rfl⟩
        · have hp : pending (s.k8sClient.Get ⟨s.namespace_, name⟩ w).1 = true := by
            rw [hr]
            simp [pending, h1, h3]
          rw [pollLoop_step_pending s name n w hp]
          intro h
          rw [after_calls] at h
          simp only [List.cons_append, List.nil_append, List.mem_cons, false_or,
            reduceCtorEq] at h
          exact ih _ lv h

/-- C10: for every service and any two behaviours `d1` and `d2` of its
client's Delete, the runs of CreateVolume with `d1` and with `d2` return the
same volume ID and the same error and issue the same calls; and whenever the
run issues a Delete of a record, the result is the empty volume ID with the
status error built from the code and message of that record, whatever the
Delete returned. -/
theorem createVolume_delete_outcome_irrelevant {σ : Type} (s : LogicalVolumeService σ)
    (d1 d2 : LogicalVolume → σ → Option Error × σ) (node name : String) (sizeGb : Int)
    (w : σ) :
    (CreateVolume (withDelete s d1) node name sizeGb w).volumeID =
      (CreateVolume (withDelete s d2) node name sizeGb w).volumeID ∧
    (CreateVolume (withDelete s d1) node name sizeGb w).err =
      (CreateVolume (withDelete s d2) node name sizeGb w).err ∧
    (CreateVolume (withDelete s d1) node name sizeGb w).calls =
      (CreateVolume (withDelete s d2) node name sizeGb w).calls ∧
    ∀ lv, Call.Delete lv ∈ (CreateVolume (withDelete s d1) node name sizeGb w).calls →
      (CreateVolume (withDelete s d1) node name sizeGb w).volumeID = "" ∧
      (CreateVolume (withDelete s d1) node name sizeGb w).err =
        status.Error lv.Status.Code lv.Status.Message := by
  have hcr : ∀ d, createOrReuse (withDelete s d) node name sizeGb w =
      createOrReuse s node name sizeGb w := fun d => rfl
  cases hc : createOrReuse s node name sizeGb w with
  | inl out =>
    have h1 : ∀ d, CreateVolume (withDelete s d) node name sizeGb w = out := by
      intro d
      simp [CreateVolume, hcr d, hc]
    rw [h1 d1, h1 d2]
    refine ⟨rfl, rfl, rfl, ?_⟩
    intro lv hmem
    exfalso
    rcases hg : s.k8sClient.Get ⟨s.namespace_, name⟩ w with ⟨r, wg⟩
    simp only [createOrReuse, hg] at hc
    cases r with
    | error e =>
      simp only at hc
      split at hc
      · cases hc
        simp at hmem
      · rcases hcc : s.k8sClient.Create (newLogicalVolume s.namespace_ node name sizeGb) wg
          with ⟨ce, wc⟩
        simp only [hcc] at hc
        cases ce with
        | some e2 =>
          cases hc
          simp at hmem
        | none => cases hc
    | ok lv2 =>
      simp only at hc
      split at hc
      · cases hc
        simp at hmem
      · cases hc
  | inr p =>
    rcases p with ⟨pre, w1⟩
    have h1 : ∀ d, CreateVolume (withDelete s d) node name sizeGb w =
        (pollLoop (withDelete s d) name 10 w1).after pre := by
      intro d
      exact createVolume_of_inr _ _ _ _ _ _ _ ((hcr d).trans hc)
    have p1 := pollLoop_withDelete s d1 name 10 w1
    have p2 := pollLoop_withDelete s d2 name 10 w1
    rw [h1 d1, h1 d2]
    refine ⟨?_, ?_, ?_, ?_⟩
    · rw [after_volumeID, after_volumeID, p1.1, p2.1]
    · rw [after_err, after_err, p1.2.1, p2.2.1]
    · rw [after_calls, after_calls, p1.2.2, p2.2.2]
    · intro lv hmem
      rw [after_calls, List.mem_append] at hmem
      rw [after_volumeID, after_err]
      rcases hmem with hmem | hmem
      · exfalso
        rcases createOrReuse_inr _ _ _ _ _ _ _ hc with hp | hp <;>
          · rw [hp] at hmem
            simp at hmem
      · exact pollLoop_delete_err (withDelete s d1) name 10 w1 lv hmem

/-- C10 on the cluster whose agent reports CREATE_FAILED with code Internal
and message `disk full`: with the Delete of the cluster and with a Delete
that always fails, CreateVolume returns the same error, built from the
record. -/
theorem createVolume_delete_outcome_irrelevant_witness :
    Call.Delete failingRecord ∈
      (CreateVolume (withDelete (Cluster.service "topolvm") Cluster.Delete)
        "n1" "v1" 10 failingCluster).calls ∧
    (CreateVolume (withDelete (Cluster.service "topolvm") Cluster.Delete)
        "n1" "v1" 10 failingCluster).err =
      (CreateVolume (withDelete (Cluster.service "topolvm") brokenDelete)
        "n1" "v1" 10 failingCluster).err ∧
    (CreateVolume (withDelete (Cluster.service "topolvm") Cluster.Delete)
        "n1" "v1" 10 failingCluster).err =
      status.Error failingRecord.Status.Code failingRecord.Status.Message :=
  have h := createVolume_delete_outcome_irrelevant (Cluster.service "topolvm")
    Cluster.Delete brokenDelete "n1" "v1" 10 failingCluster
  have hmem : Call.Delete failingRecord ∈
      (CreateVolume (withDelete (Cluster.service "topolvm") Cluster.Delete)
        "n1" "v1" 10 failingCluster).calls := by decide
  ⟨hmem, h.2.1, (h.2.2.2 failingRecord hmem).2⟩

/-! ## C2: a compatible record under the name -/

/-- What a `Delete` served by the cluster leaves: the records as the agent
wrote them, with or without those under the key. -/
theorem Cluster.delete_objects (lv : LogicalVolume) (w : Cluster) :
    (Cluster.Delete lv w).2.objects = w.settle.objects ∨
    (Cluster.Delete lv w).2.objects = Cluster.without lv.key w.settle.objects := by
  unfold Cluster.Delete
  cases w.fault w.now with
  | some e => exact Or.inl rfl
  | none =>
    cases Cluster.lookup lv.key w.settle.objects with
    | none => exact Or.inl rfl
    | some lv2 => exact Or.inr rfl

theorem Cluster.desiredOf_under (key : ObjectKey) (l1 l2 : List LogicalVolume)
    (h : Cluster.desiredOf l1 = Cluster.desiredOf l2) :
    Cluster.desiredOf (Cluster.under key l1) = Cluster.desiredOf (Cluster.under key l2) := by
  have e : ∀ l : List LogicalVolume, Cluster.desiredOf (Cluster.under key l) =
      (Cluster.desiredOf l).filter
        (fun d => decide ((⟨d.2.1.Namespace, d.2.1.Name⟩ : ObjectKey) = key)) := by
    intro l
    simp only [Cluster.desiredOf, Cluster.under, List.filter_map]
    rfl
  rw [e l1, e l2, h]

theorem Cluster.under_nil_of_desiredOf (key : ObjectKey) (l1 l2 : List LogicalVolume)
    (h : Cluster.desiredOf l1 = Cluster.desiredOf (Cluster.without key l2)) :
    Cluster.under key l1 = [] := by
  have h2 := Cluster.desiredOf_under key _ _ h
  rw [Cluster.under_without] at h2
  simpa [Cluster.desiredOf] using h2

/-- The loop on the cluster adds no record and rewrites none: it leaves every
record in place up to its status, or, having issued a Delete, every record
but those under the name. -/
theorem Cluster.pollLoop_frame (ns name : String) :
    ∀ (n : Nat) (w : Cluster),
      Cluster.desiredOf (pollLoop (Cluster.service ns) name n w).world.objects =
        Cluster.desiredOf w.objects ∨
      ((pollLoop (Cluster.service ns) name n w).calls.any Call.isDelete = true ∧
        Cluster.desiredOf (pollLoop (Cluster.service ns) name n w).world.objects =
          Cluster.desiredOf (Cluster.without ⟨ns, name⟩ w.objects)) := by
  intro n
  induction n with
  | zero => intro w; exact Or.inl rfl
  | succ n ih =>
    intro w
    have hw : ((Cluster.service ns).k8sClient.Get ⟨(Cluster.service ns).namespace_, name⟩ w).2 =
        w.settle := Cluster.get_world ⟨ns, name⟩ w
    cases hr : ((Cluster.service ns).k8sClient.Get
        ⟨(Cluster.service ns).namespace_, name⟩ w).1 with
    | error e =>
      rw [pollLoop_step_error _ name n w e hr]
      left
      show Cluster.desiredOf ((Cluster.service ns).k8sClient.Get _ w).2.objects = _
      rw [hw, Cluster.desiredOf_settle]
    | ok lv =>
      by_cases h1 : lv.Status.Phase = "CREATED"
      · by_cases h2 : lv.Status.VolumeID = ""
        · rw [pollLoop_step_created_empty _ name n w lv hr h1 h2]
          left
          show Cluster.desiredOf ((Cluster.service ns).k8sClient.Get _ w).2.objects = _
          rw [hw, Cluster.desiredOf_settle]
        · rw [pollLoop_step_created _ name n w lv hr h1 h2]
          left
          show Cluster.desiredOf ((Cluster.service ns).k8sClient.Get _ w).2.objects = _
          rw [hw, Cluster.desiredOf_settle]
      · by_cases h3 : lv.Status.Phase = "CREATE_FAILED"
        · rw [pollLoop_step_failed _ name n w lv hr h3]
          have hkey : lv.key = ⟨ns, name⟩ :=
            Cluster.lookup_key _ _ _ (Cluster.get_ok_lookup ⟨ns, name⟩ w lv hr)
          show Cluster.desiredOf (Cluster.Delete lv
              ((Cluster.service ns).k8sClient.Get _ w).2).2.objects = _ ∨ _ ∧
            Cluster.desiredOf (Cluster.Delete lv
              ((Cluster.service ns).k8sClient.Get _ w).2).2.objects = _
          rw [hw]
          rcases Cluster.delete_objects lv w.settle with hd | hd
          · left
            rw [hd, Cluster.desiredOf_settle, Cluster.desiredOf_settle]
          · right
            refine ⟨rfl, ?_⟩
            rw [hd, hkey, Cluster.without_settle, Cluster.without_settle]
        · have hp : pending ((Cluster.service ns).k8sClient.Get
              ⟨(Cluster.service ns).namespace_, name⟩ w).1 = true := by
            rw [hr]
            simp [pending, h1, h3]
          rw [pollLoop_step_pending _ name n w hp, hw]
          have hsame : Cluster.desiredOf
              ((Cluster.service ns).timeSleep 1 w.settle).objects =
              Cluster.desiredOf w.objects := by
            rw [Cluster.sleep_objects, Cluster.desiredOf_settle]
          rcases ih ((Cluster.service ns).timeSleep 1 w.settle) with h | ⟨hdel, h⟩
          · left
            rw [after_world, h, hsame]
          · right
            refine ⟨?_, ?_⟩
            · rw [after_calls, List.any_append, hdel, Bool.or_true]
            · rw [after_world, h]
              exact Cluster.desiredOf_without _ _ _ hsame

/-- A `Delete` in the calls of the loop follows a poll that read that record
in phase CREATE_FAILED, all earlier polls having gone on. -/
theorem pollLoop_delete_observed {σ : Type} (s : LogicalVolumeService σ) (name : String) :
    ∀ (n : Nat) (w : σ) (lv : LogicalVolume), Call.Delete lv ∈ (pollLoop s name n w).calls →
      ∃ k, k < n ∧ (∀ j, j < k → pending (observed s name j w) = true) ∧
        observed s name k w = Except.ok lv ∧ lv.Status.Phase = "CREATE_FAILED" := by
  intro n
  induction n with
  | zero =>
    intro w lv h
    exact absurd h (List.not_mem_nil _)
  | succ n ih =>
    intro w lv
    cases hr : (s.k8sClient.Get ⟨s.namespace_, name⟩ w).1 with
    | error e =>
      rw [pollLoop_step_error s name n w e hr]
      intro h
      simp at h
    | ok lv2 =>
      by_cases h1 : lv2.Status.Phase = "CREATED"
      · by_cases h2 : lv2.Status.VolumeID = ""
        · rw [pollLoop_step_created_empty s name n w lv2 hr h1 h2]
          intro h
          simp at h
        · rw [pollLoop_step_created s name n w lv2 hr h1 h2]
          intro h
          simp at h
      · by_cases h3 : lv2.Status.Phase = "CREATE_FAILED"
        · rw [pollLoop_step_failed s name n w lv2 hr h3]
          intro h
          simp only [List.mem_cons, List.mem_singleton, Call.Delete.injEq, false_or,
            List.mem_nil_iff, or_false, reduceCtorEq] at h
          subst h
          refine ⟨0, Nat.succ_pos n, ?_, hr, h3⟩
          intro j hj
          exact absurd hj (Nat.not_lt_zero j)
        · have hp : pending (s.k8sClient.Get ⟨s.namespace_, name⟩ w).1 = true := by
            rw [hr]
            simp [pending, h1, h3]
          rw [pollLoop_step_pending s name n w hp]
          intro h
          rw [after_calls] at h
          simp only [List.cons_append, List.nil_append, List.mem_cons, false_or,
            reduceCtorEq] at h
          rcases ih _ lv h with ⟨k, hk, hpend, hobs, hph⟩
          refine ⟨k + 1, Nat.succ_lt_succ hk, ?_, hobs, hph⟩
          intro j hj
          cases j with
          | zero => exact hp
          | succ j => exact hpend j (Nat.lt_of_succ_lt_succ hj)

/-- A `Delete` that the cluster does not serve, or serves with an error,
removes nothing. -/
theorem Cluster.delete_fail (lv : LogicalVolume) (w : Cluster)
    (h : (Cluster.Delete lv w).1 ≠ none) : (Cluster.Delete lv w).2 = w.settle := by
  unfold Cluster.Delete at h ⊢
  cases hf : w.fault w.now with
  | some e => rfl
  | none =>
    cases hl : Cluster.lookup lv.key w.settle.objects with
    | none => rfl
    | some lv2 => simp [hf, hl] at h

/-- C2 fails as stated: the first call creates `v1` and times out, leaving
the record; the agent then reports CREATE_FAILED; the second call with the
same arguments finds the record compatible, issues no Create, polls it,
deletes it, and no record is left under `v1`. -/
theorem createVolume_retry_may_delete :
    (CreateVolume (Cluster.service "topolvm") "n1" "v1" 10 lateFailingCluster).err =
      some (Error.errorString "timed out") ∧
    (CreateVolume (Cluster.service "topolvm") "n1" "v1" 10 lateFailingCluster).world.objects =
      [newLogicalVolume "topolvm" "n1" "v1" 10] ∧
    (CreateVolume (Cluster.service "topolvm") "n1" "v1" 10
      (CreateVolume (Cluster.service "topolvm") "n1" "v1" 10 lateFailingCluster).world).calls =
      [Call.Get ⟨"topolvm", "v1"⟩, Call.Get ⟨"topolvm", "v1"⟩, Call.Delete failingRecord] ∧
    Cluster.under ⟨"topolvm", "v1"⟩
      (CreateVolume (Cluster.service "topolvm") "n1" "v1" 10
        (CreateVolume (Cluster.service "topolvm") "n1" "v1" 10
          lateFailingCluster).world).world.objects = [] := by
  decide

/-- C2, amended: when the initial Get finds a record with the node and size
of the request, CreateVolume goes straight to polling after that one Get and
issues no Create.  A Delete is issued only for a record that a poll read in
phase CREATE_FAILED.  If the call issues no Delete, every record is
afterwards where it was, with type, metadata and spec unchanged, and so are
the records under the name.  If poll number `k < 10` reads the record in phase
CREATE_FAILED, every earlier poll having gone on, the call issues the one
Delete of that record: when the Delete is served without error no record is
left under the name, and when it fails every record is where it was, as in
the first case.  In every case no record is added: the records under the name
are those from before or none, and the store keeps every record up to its
status or every record but those under the name. -/
theorem createVolume_compatible_reuses (ns node name : String) (sizeGb : Int) (w : Cluster)
    (existingLV : LogicalVolume)
    (hget : (Cluster.Get ⟨ns, name⟩ w).1 = Except.ok existingLV)
    (hnode : existingLV.Spec.NodeName = node)
    (hsize : existingLV.Spec.Size.Value = shl30 sizeGb) :
    CreateVolume (Cluster.service ns) node name sizeGb w =
      (pollLoop (Cluster.service ns) name 10 (Cluster.Get ⟨ns, name⟩ w).2).after
        [Call.Get ⟨ns, name⟩] ∧
    ((CreateVolume (Cluster.service ns) node name sizeGb w).calls.all
      fun c => !c.isCreate) = true ∧
    (∀ lv, Call.Delete lv ∈ (CreateVolume (Cluster.service ns) node name sizeGb w).calls →
      ∃ k, k < 10 ∧
        (∀ j, j < k → pending (observed (Cluster.service ns) name j
          (Cluster.Get ⟨ns, name⟩ w).2) = true) ∧
        observed (Cluster.service ns) name k (Cluster.Get ⟨ns, name⟩ w).2 = Except.ok lv ∧
        lv.Status.Phase = "CREATE_FAILED") ∧
    ((∀ lv, Call.Delete lv ∉ (CreateVolume (Cluster.service ns) node name sizeGb w).calls) →
      Cluster.desiredOf (CreateVolume (Cluster.service ns) node name sizeGb w).world.objects =
        Cluster.desiredOf w.objects ∧
      Cluster.desiredOf (Cluster.under ⟨ns, name⟩
        (CreateVolume (Cluster.service ns) node name sizeGb w).world.objects) =
        Cluster.desiredOf (Cluster.under ⟨ns, name⟩ w.objects)) ∧
    (∀ (k : Nat) (lv : LogicalVolume), k < 10 →
      (∀ j, j < k → pending (observed (Cluster.service ns) name j
        (Cluster.Get ⟨ns, name⟩ w).2) = true) →
      observed (Cluster.service ns) name k (Cluster.Get ⟨ns, name⟩ w).2 = Except.ok lv →
      lv.Status.Phase = "CREATE_FAILED" →
      Call.Delete lv ∈ (CreateVolume (Cluster.service ns) node name sizeGb w).calls ∧
      (CreateVolume (Cluster.service ns) node name sizeGb w).calls.countP Call.isDelete = 1 ∧
      ((Cluster.Delete lv (observedWorld (Cluster.service ns) name k
          (Cluster.Get ⟨ns, name⟩ w).2)).1 = none →
        Cluster.under ⟨ns, name⟩
          (CreateVolume (Cluster.service ns) node name sizeGb w).world.objects = []) ∧
      ((Cluster.Delete lv (observedWorld (Cluster.service ns) name k
          (Cluster.Get ⟨ns, name⟩ w).2)).1 ≠ none →
        Cluster.desiredOf (CreateVolume (Cluster.service ns) node name sizeGb w).world.objects =
          Cluster.desiredOf w.objects ∧
        Cluster.desiredOf (Cluster.under ⟨ns, name⟩
          (CreateVolume (Cluster.service ns) node name sizeGb w).world.objects) =
          Cluster.desiredOf (Cluster.under ⟨ns, name⟩ w.objects))) ∧
    (Cluster.desiredOf (Cluster.under ⟨ns, name⟩
        (CreateVolume (Cluster.service ns) node name sizeGb w).world.objects) =
        Cluster.desiredOf (Cluster.under ⟨ns, name⟩ w.objects) ∨
      ((CreateVolume (Cluster.service ns) node name sizeGb w).calls.any Call.isDelete = true ∧
        Cluster.under ⟨ns, name⟩
          (CreateVolume (Cluster.service ns) node name sizeGb w).world.objects = [])) ∧
    (Cluster.desiredOf (CreateVolume (Cluster.service ns) node name sizeGb w).world.objects =
        Cluster.desiredOf w.objects ∨
      ((CreateVolume (Cluster.service ns) node name sizeGb w).calls.any Call.isDelete = true ∧
        Cluster.desiredOf (CreateVolume (Cluster.service ns) node name sizeGb w).world.objects =
          Cluster.desiredOf (Cluster.without ⟨ns, name⟩ w.objects))) := by
  have hw := Cluster.get_world ⟨ns, name⟩ w
  have hcr : createOrReuse (Cluster.service ns) node name sizeGb w =
      Sum.inr ([Call.Get ⟨ns, name⟩], (Cluster.Get ⟨ns, name⟩ w).2) := by
    rcases hg : Cluster.Get ⟨ns, name⟩ w with ⟨r, wg⟩
    rw [hg] at hget
    simp only at hget
    subst hget
    simp [createOrReuse, Cluster.service, Cluster.client, hg, hnode, hsize]
  have hrun := createVolume_of_inr _ _ _ _ _ _ _ hcr
  have hframe : Cluster.desiredOf
        (CreateVolume (Cluster.service ns) node name sizeGb w).world.objects =
        Cluster.desiredOf w.objects ∨
      ((CreateVolume (Cluster.service ns) node name sizeGb w).calls.any Call.isDelete = true ∧
        Cluster.desiredOf (CreateVolume (Cluster.service ns) node name sizeGb w).world.objects =
          Cluster.desiredOf (Cluster.without ⟨ns, name⟩ w.objects)) := by
    rw [hrun, after_world, after_calls, hw]
    rcases Cluster.pollLoop_frame ns name 10 w.settle with h | ⟨hdel, h⟩
    · left
      rw [h, Cluster.desiredOf_settle]
    · right
      refine ⟨?_, ?_⟩
      · rw [List.any_append, hdel, Bool.or_true]
      · rw [h, Cluster.without_settle]
  refine ⟨hrun, createVolume_found_no_create _ _ _ _ _ _ hcr, ?_, ?_, ?_, ?_, hframe⟩
  · intro lv hmem
    rw [hrun, after_calls] at hmem
    simp only [List.cons_append, List.nil_append, List.mem_cons, false_or,
      reduceCtorEq] at hmem
    exact pollLoop_delete_observed (Cluster.service ns) name 10 _ lv hmem
  · intro hnd
    rcases hframe with h | ⟨hdel, _⟩
    · exact ⟨h, Cluster.desiredOf_under _ _ _ h⟩
    · exfalso
      rcases List.any_eq_true.mp hdel with ⟨c, hc, hd⟩
      cases c with
      | Delete lv => exact hnd lv hc
      | Get key => simp [Call.isDelete] at hd
      | Create obj => simp [Call.isDelete] at hd
      | Sleep seconds => simp [Call.isDelete] at hd
  · intro k lv hk hpend hobs hph
    have e10 : 10 = (9 - k) + 1 + k := by omega
    have hrun2 : CreateVolume (Cluster.service ns) node name sizeGb w =
        ⟨"", status.Error lv.Status.Code lv.Status.Message,
          [Call.Get ⟨ns, name⟩] ++ (pendingCalls ⟨ns, name⟩ k ++
            [Call.Get ⟨ns, name⟩, Call.Delete lv]),
          (Cluster.Delete lv (observedWorld (Cluster.service ns) name k
            (Cluster.Get ⟨ns, name⟩ w).2)).2⟩ := by
      rw [hrun, e10, pollLoop_failed (Cluster.service ns) name k (9 - k) _ lv hpend hobs hph]
      rfl
    have hkey : lv.key = ⟨ns, name⟩ :=
      Cluster.lookup_key _ _ _ (Cluster.observed_lookup ns name k _ lv hobs)
    have hnd_pend : (pendingCalls ⟨ns, name⟩ k).countP Call.isDelete = 0 := by
      rw [List.countP_eq_zero]
      intro c hc
      have := List.all_eq_true.mp (pendingCalls_no_delete ⟨ns, name⟩ k) c hc
      simpa using this
    have hsame : Cluster.desiredOf (observedWorld (Cluster.service ns) name k
        (Cluster.Get ⟨ns, name⟩ w).2).objects = Cluster.desiredOf w.objects := by
      rw [Cluster.desiredOf_observedWorld, hw, Cluster.desiredOf_settle]
    rw [hrun2]
    refine ⟨by simp, ?_, ?_, ?_⟩
    · simp only [List.countP_append, hnd_pend]
      rfl
    · intro hdel
      show Cluster.under ⟨ns, name⟩ (Cluster.Delete lv _).2.objects = []
      rw [Cluster.delete_ok lv _ hdel, hkey]
      exact Cluster.under_without _ _
    · intro hdel
      have hkeep : Cluster.desiredOf (Cluster.Delete lv (observedWorld (Cluster.service ns)
          name k (Cluster.Get ⟨ns, name⟩ w).2)).2.objects = Cluster.desiredOf w.objects := by
        rw [Cluster.delete_fail lv _ hdel, Cluster.desiredOf_settle, hsame]
      exact ⟨hkeep, Cluster.desiredOf_under _ _ _ hkeep⟩
  · rcases hframe with h | ⟨hdel, h⟩
    · exact Or.inl (Cluster.desiredOf_under _ _ _ h)
    · exact Or.inr ⟨hdel, Cluster.under_nil_of_desiredOf _ _ _ h⟩

/-- C2, amended, on two clusters.  With an agent that writes nothing the
first call creates `v1` and times out; the second call finds the record,
issues no Create and no Delete, and the store holds the one record the first
call created.  With an agent that reports CREATE_FAILED after the first call
and a Delete that fails, the second call finds the record, issues its Delete,
and the record stays. -/
theorem createVolume_compatible_reuses_witness :
    (Cluster.Get ⟨"topolvm", "v1"⟩
      (CreateVolume (Cluster.service "topolvm") "n1" "v1" 10 emptyCluster).world).1 =
      Except.ok (newLogicalVolume "topolvm" "n1" "v1" 10) ∧
    (newLogicalVolume "topolvm" "n1" "v1" 10).Spec.NodeName = "n1" ∧
    (newLogicalVolume "topolvm" "n1" "v1" 10).Spec.Size.Value = shl30 10 ∧
    ((CreateVolume (Cluster.service "topolvm") "n1" "v1" 10
        (CreateVolume (Cluster.service "topolvm") "n1" "v1" 10 emptyCluster).world).calls.all
      fun c => !c.isCreate) = true ∧
    (CreateVolume (Cluster.service "topolvm") "n1" "v1" 10
      (CreateVolume (Cluster.service "topolvm") "n1" "v1" 10
        emptyCluster).world).world.objects = [newLogicalVolume "topolvm" "n1" "v1" 10] ∧
    (Cluster.Get ⟨"topolvm", "v1"⟩
      (CreateVolume (Cluster.service "topolvm") "n1" "v1" 10 stuckCluster).world).1 =
      Except.ok failingRecord ∧
    Call.Delete failingRecord ∈
      (CreateVolume (Cluster.service "topolvm") "n1" "v1" 10
        (CreateVolume (Cluster.service "topolvm") "n1" "v1" 10 stuckCluster).world).calls ∧
    Cluster.desiredOf (CreateVolume (Cluster.service "topolvm") "n1" "v1" 10
      (CreateVolume (Cluster.service "topolvm") "n1" "v1" 10
        stuckCluster).world).world.objects =
      Cluster.desiredOf
        (CreateVolume (Cluster.service "topolvm") "n1" "v1" 10 stuckCluster).world.objects ∧
    (CreateVolume (Cluster.service "topolvm") "n1" "v1" 10
      (CreateVolume (Cluster.service "topolvm") "n1" "v1" 10
        stuckCluster).world).world.objects = [failingRecord] :=
  have h := createVolume_compatible_reuses "topolvm" "n1" "v1" 10
    (CreateVolume (Cluster.service "topolvm") "n1" "v1" 10 emptyCluster).world
    (newLogicalVolume "topolvm" "n1" "v1" 10) rfl rfl rfl
  have h2 := (createVolume_compatible_reuses "topolvm" "n1" "v1" 10
    (CreateVolume (Cluster.service "topolvm") "n1" "v1" 10 stuckCluster).world
    failingRecord rfl rfl rfl).2.2.2.2.1 0 failingRecord (by decide)
    (fun j hj => absurd hj (Nat.not_lt_zero j)) rfl rfl
  ⟨rfl, rfl, rfl, h.2.1, by decide, rfl, h2.1, (h2.2.2.2 (by decide)).1, by decide⟩

/-! ## C13: gigabytes to bytes -/

/-- The shift `sizeGb<<30` does not wrap for sizes from -2^33 up to 2^33. -/
theorem shl30_exact (sizeGb : Int) (h0 : -2 ^ 33 ≤ sizeGb) (h1 : sizeGb < 2 ^ 33) :
    shl30 sizeGb = sizeGb * 1073741824 := by
  unfold shl30 wrapInt64
  norm_num at h0 h1 ⊢
  omega

/-- The create-or-reuse step hands over to polling on a record found with the
node of the request exactly when the size of the record is `sizeGb<<30`. -/
theorem createOrReuse_found_iff {σ : Type} (s : LogicalVolumeService σ) (node name : String)
    (sizeGb : Int) (w : σ) (existingLV : LogicalVolume)
    (hget : (s.k8sClient.Get ⟨s.namespace_, name⟩ w).1 = Except.ok existingLV)
    (hnode : existingLV.Spec.NodeName = node) :
    (∃ p, createOrReuse s node name sizeGb w = Sum.inr p) ↔
      existingLV.Spec.Size.Value = shl30 sizeGb := by
  rcases hg : s.k8sClient.Get ⟨s.namespace_, name⟩ w with ⟨r, wg⟩
  rw [hg] at hget
  simp only at hget
  subst hget
  by_cases hsize : existingLV.Spec.Size.Value = shl30 sizeGb
  · simp [createOrReuse, hg, hnode, hsize]
  · simp [createOrReuse, hg, hnode, hsize]

/-- C13: for every `sizeGb` with 0 ≤ sizeGb < 2^33 the int64 value
`sizeGb<<30` is the product `sizeGb * 1073741824`; this is the size of the
record CreateVolume creates, and a record found with the node of the request
is taken as compatible exactly when its size is that product; for
`sizeGb = 1` the value is 1073741824 and not 1000000000. -/
theorem shl30_is_gibibytes {σ : Type} (s : LogicalVolumeService σ) (node name : String)
    (sizeGb : Int) (w : σ) (h0 : 0 ≤ sizeGb) (h1 : sizeGb < 2 ^ 33) :
    shl30 sizeGb = sizeGb * 1073741824 ∧
    (newLogicalVolume s.namespace_ node name sizeGb).Spec.Size.Value =
      sizeGb * 1073741824 ∧
    (∀ existingLV : LogicalVolume,
      (s.k8sClient.Get ⟨s.namespace_, name⟩ w).1 = Except.ok existingLV →
      existingLV.Spec.NodeName = node →
      ((∃ p, createOrReuse s node name sizeGb w = Sum.inr p) ↔
        existingLV.Spec.Size.Value = sizeGb * 1073741824)) ∧
    shl30 1 = 1073741824 ∧ shl30 1 ≠ 1000000000 := by
  have hx : shl30 sizeGb = sizeGb * 1073741824 :=
    shl30_exact sizeGb (le_trans (by norm_num) h0) h1
  refine ⟨hx, hx, ?_, by decide, by decide⟩
  intro existingLV hget hnode
  rw [← hx]
  exact createOrReuse_found_iff s node name sizeGb w existingLV hget hnode

/-- C13 at 10 GB on the cluster holding the record `v1`. -/
theorem shl30_is_gibibytes_witness :
    (0 : Int) ≤ 10 ∧ (10 : Int) < 2 ^ 33 ∧
    shl30 10 = 10 * 1073741824 ∧
    (newLogicalVolume "topolvm" "n1" "v1" 10).Spec.Size.Value = 10 * 1073741824 ∧
    ((∃ p, createOrReuse (Cluster.service "topolvm") "n1" "v1" 10 clusterV1 = Sum.inr p) ↔
      (newLogicalVolume "topolvm" "n1" "v1" 10).Spec.Size.Value = 10 * 1073741824) :=
  have h := shl30_is_gibibytes (Cluster.service "topolvm") "n1" "v1" 10 clusterV1
    (by decide) (by decide)
  ⟨by decide, by decide, h.1, h.2.1,
    h.2.2.1 (newLogicalVolume "topolvm" "n1" "v1" 10) rfl rfl⟩

/-! ## C12: sizes are compared as int64 byte counts -/

/-- C12 fails as stated: the first call creates `v1` with 1 GB; a second call
for the same node and name with 17179869185 GB, a different int64 size whose
shift by 30 wraps to the same byte count, finds the record compatible and
goes on to poll it instead of failing with AlreadyExists. -/
theorem createVolume_wrapped_size_reused :
    (1 : Int) ≠ 17179869185 ∧ (17179869185 : Int) < 2 ^ 63 ∧
    (CreateVolume (Cluster.service "topolvm") "n1" "v1" 1 emptyCluster).world.objects =
      [newLogicalVolume "topolvm" "n1" "v1" 1] ∧
    createOrReuse (Cluster.service "topolvm") "n1" "v1" 17179869185
        (CreateVolume (Cluster.service "topolvm") "n1" "v1" 1 emptyCluster).world =
      Sum.inr ([Call.Get ⟨"topolvm", "v1"⟩],
        (CreateVolume (Cluster.service "topolvm") "n1" "v1" 1 emptyCluster).world.settle) ∧
    (CreateVolume (Cluster.service "topolvm") "n1" "v1" 17179869185
      (CreateVolume (Cluster.service "topolvm") "n1" "v1" 1 emptyCluster).world).err =
      some (Error.errorString "timed out") ∧
    status.Code (CreateVolume (Cluster.service "topolvm") "n1" "v1" 17179869185
      (CreateVolume (Cluster.service "topolvm") "n1" "v1" 1 emptyCluster).world).err ≠
      codes.AlreadyExists :=
  ⟨by decide, by decide, by decide, rfl, by decide, by decide⟩

/-- C12, amended: when the Get finds the record that CreateVolume created
for `node`, `name` and size `s1` (with any status), a CreateVolume for the
same node and name with size `s2` fails with AlreadyExists after that one Get
if `s1<<30` and `s2<<30` differ on int64, and is taken as a compatible reuse
if they are equal; they differ whenever `s1` and `s2` are different sizes from
-2^33 up to 2^33. -/
theorem createVolume_size_conflict (ns node name : String) (s1 s2 : Int) (w : Cluster)
    (existingLV : LogicalVolume)
    (hget : (Cluster.Get ⟨ns, name⟩ w).1 = Except.ok existingLV)
    (hspec : existingLV.Spec = (newLogicalVolume ns node name s1).Spec) :
    (shl30 s1 ≠ shl30 s2 →
      (CreateVolume (Cluster.service ns) node name s2 w).volumeID = "" ∧
      (CreateVolume (Cluster.service ns) node name s2 w).err =
        some (Error.statusError codes.AlreadyExists "LogicalVolume already exists") ∧
      status.Code (CreateVolume (Cluster.service ns) node name s2 w).err =
        codes.AlreadyExists ∧
      (CreateVolume (Cluster.service ns) node name s2 w).calls = [Call.Get ⟨ns, name⟩]) ∧
    (shl30 s1 = shl30 s2 →
      createOrReuse (Cluster.service ns) node name s2 w =
        Sum.inr ([Call.Get ⟨ns, name⟩], (Cluster.Get ⟨ns, name⟩ w).2)) ∧
    (-2 ^ 33 ≤ s1 → s1 < 2 ^ 33 → -2 ^ 33 ≤ s2 → s2 < 2 ^ 33 → s1 ≠ s2 →
      shl30 s1 ≠ shl30 s2) := by
  have hnode : existingLV.Spec.NodeName = node := by rw [hspec]; rfl
  have hsize : existingLV.Spec.Size.Value = shl30 s1 := by rw [hspec]; rfl
  rcases hg : Cluster.Get ⟨ns, name⟩ w with ⟨r, w1⟩
  rw [hg] at hget
  simp only at hget
  subst hget
  refine ⟨?_, ?_, ?_⟩
  · intro hne
    have hrun : CreateVolume (Cluster.service ns) node name s2 w =
        ⟨"", status.Error codes.AlreadyExists "LogicalVolume already exists",
          [Call.Get ⟨ns, name⟩], w1⟩ := by
      simp [CreateVolume, createOrReuse, Cluster.service, Cluster.client, hg, hnode, hsize,
        hne]
    rw [hrun]
    exact ⟨rfl, rfl, rfl, rfl⟩
  · intro heq
    simp [createOrReuse, Cluster.service, Cluster.client, hg, hnode, hsize, heq]
  · intro a1 b1 a2 b2 hne heq
    rw [shl30_exact s1 a1 b1, shl30_exact s2 a2 b2] at heq
    omega

/-- C12, amended, on the cluster holding `v1` with 10 GB: a request with
20 GB is a conflict. -/
theorem createVolume_size_conflict_witness :
    (Cluster.Get ⟨"topolvm", "v1"⟩ clusterV1).1 =
      Except.ok (newLogicalVolume "topolvm" "n1" "v1" 10) ∧
    (newLogicalVolume "topolvm" "n1" "v1" 10).Spec =
      (newLogicalVolume "topolvm" "n1" "v1" 10).Spec ∧
    shl30 10 ≠ shl30 20 ∧
    (CreateVolume (Cluster.service "topolvm") "n1" "v1" 20 clusterV1).err =
      some (Error.statusError codes.AlreadyExists "LogicalVolume already exists") ∧
    (CreateVolume (Cluster.service "topolvm") "n1" "v1" 20 clusterV1).calls =
      [Call.Get ⟨"topolvm", "v1"⟩] :=
  have h := createVolume_size_conflict "topolvm" "n1" "v1" 10 20 clusterV1
    (newLogicalVolume "topolvm" "n1" "v1" 10) rfl rfl
  have hne : shl30 10 ≠ shl30 20 :=
    h.2.2 (by decide) (by decide) (by decide) (by decide) (by decide)
  ⟨rfl, rfl, hne, (h.1 hne).2.1, (h.1 hne).2.2.2⟩

/-! ## C11: errors of the store end the run -/

/-- C11: for every client, (1) if the initial Get fails with an error that is
not not-found, CreateVolume returns the empty volume ID with that error and
the Get is its only call; (2) if the initial Get reports not-found and the
Create fails, CreateVolume returns the empty volume ID with the error of the
Create, and the Get and the Create are its only calls; (3) if, after the
create-or-reuse step, the Get of poll number `k < 10` fails with any error,
all earlier polls having gone on, CreateVolume returns the empty volume ID
with that error and the failing Get is its last call.  In each case the
world left is the one the failing call left. -/
theorem createVolume_store_error_aborts {σ : Type} (s : LogicalVolumeService σ)
    (node name : String) (sizeGb : Int) (w : σ) :
    (∀ e : Error, (s.k8sClient.Get ⟨s.namespace_, name⟩ w).1 = Except.error e →
      IsNotFound (some e) = false →
      CreateVolume s node name sizeGb w =
        ⟨"", some e, [Call.Get ⟨s.namespace_, name⟩],
          (s.k8sClient.Get ⟨s.namespace_, name⟩ w).2⟩) ∧
    (∀ e0 e : Error, (s.k8sClient.Get ⟨s.namespace_, name⟩ w).1 = Except.error e0 →
      IsNotFound (some e0) = true →
      (s.k8sClient.Create (newLogicalVolume s.namespace_ node name sizeGb)
        (s.k8sClient.Get ⟨s.namespace_, name⟩ w).2).1 = some e →
      CreateVolume s node name sizeGb w =
        ⟨"", some e,
          [Call.Get ⟨s.namespace_, name⟩,
            Call.Create (newLogicalVolume s.namespace_ node name sizeGb)],
          (s.k8sClient.Create (newLogicalVolume s.namespace_ node name sizeGb)
            (s.k8sClient.Get ⟨s.namespace_, name⟩ w).2).2⟩) ∧
    (∀ (pre : List Call) (w1 : σ) (k : Nat) (e : Error),
      createOrReuse s node name sizeGb w = Sum.inr (pre, w1) → k < 10 →
      (∀ j, j < k → pending (observed s name j w1) = true) →
      observed s name k w1 = Except.error e →
      CreateVolume s node name sizeGb w =
        ⟨"", some e, pre ++ (pendingCalls ⟨s.namespace_, name⟩ k ++
          [Call.Get ⟨s.namespace_, name⟩]), observedWorld s name k w1⟩) := by
  refine ⟨?_, ?_, ?_⟩
  · intro e hget hnf
    rcases hg : s.k8sClient.Get ⟨s.namespace_, name⟩ w with ⟨r, wg⟩
    rw [hg] at hget
    simp only at hget
    subst hget
    have hign : IgnoreNotFound (some e) = some e := by simp [IgnoreNotFound, hnf]
    simp [CreateVolume, createOrReuse, hg, hign]
  · intro e0 e hget hnf hcreate
    rcases hg : s.k8sClient.Get ⟨s.namespace_, name⟩ w with ⟨r, wg⟩
    rw [hg] at hget hcreate
    simp only at hget hcreate
    subst hget
    have hign : IgnoreNotFound (some e0) = none := by simp [IgnoreNotFound, hnf]
    rcases hc : s.k8sClient.Create (newLogicalVolume s.namespace_ node name sizeGb) wg
      with ⟨ce, wc⟩
    rw [hc] at hcreate
    simp only at hcreate
    subst hcreate
    simp [CreateVolume, createOrReuse, hg, hign, hc]
  · intro pre w1 k e hpre hk hpend hobs
    have e10 : 10 = (9 - k) + 1 + k := by omega
    rw [createVolume_of_inr _ _ _ _ _ _ _ hpre, e10,
      pollLoop_error s name k (9 - k) w1 e hpend hobs]
    rfl

/-- C11 on three clusters: the first Get fails with a transport error; the
Create is refused; the second poll reports not-found. -/
theorem createVolume_store_error_aborts_witness :
    ((Cluster.service "topolvm").k8sClient.Get ⟨"topolvm", "v1"⟩ downCluster).1 =
      Except.error (Error.transport "connection refused") ∧
    IsNotFound (some (Error.transport "connection refused")) = false ∧
    (CreateVolume (Cluster.service "topolvm") "n1" "v1" 10 downCluster).err =
      some (Error.transport "connection refused") ∧
    (CreateVolume (Cluster.service "topolvm") "n1" "v1" 10 downCluster).calls =
      [Call.Get ⟨"topolvm", "v1"⟩] ∧
    (CreateVolume (Cluster.service "topolvm") "n1" "v1" 10 refusingCluster).err =
      some (Error.apiStatus "Forbidden" "forbidden") ∧
    (CreateVolume (Cluster.service "topolvm") "n1" "v1" 10 refusingCluster).calls =
      [Call.Get ⟨"topolvm", "v1"⟩, Call.Create (newLogicalVolume "topolvm" "n1" "v1" 10)] ∧
    observed (Cluster.service "topolvm") "v1" 1 vanishingStart =
      Except.error (Error.apiStatus "NotFound" "not found") ∧
    (CreateVolume (Cluster.service "topolvm") "n1" "v1" 10 vanishingCluster).err =
      some (Error.apiStatus "NotFound" "not found") ∧
    (CreateVolume (Cluster.service "topolvm") "n1" "v1" 10 vanishingCluster).calls =
      [Call.Get ⟨"topolvm", "v1"⟩, Call.Create (newLogicalVolume "topolvm" "n1" "v1" 10),
        Call.Get ⟨"topolvm", "v1"⟩, Call.Sleep 1, Call.Get ⟨"topolvm", "v1"⟩] :=
  have h1 := (createVolume_store_error_aborts (Cluster.service "topolvm") "n1" "v1" 10
    downCluster).1 (Error.transport "connection refused") rfl (by decide)
  have h2 := (createVolume_store_error_aborts (Cluster.service "topolvm") "n1" "v1" 10
    refusingCluster).2.1 (Error.apiStatus "NotFound" "not found")
    (Error.apiStatus "Forbidden" "forbidden") rfl (by decide) rfl
  have h3 := (createVolume_store_error_aborts (Cluster.service "topolvm") "n1" "v1" 10
    vanishingCluster).2.2
    [Call.Get ⟨"topolvm", "v1"⟩, Call.Create (newLogicalVolume "topolvm" "n1" "v1" 10)]
    vanishingStart 1 (Error.apiStatus "NotFound" "not found") rfl (by decide)
    (by decide) rfl
  ⟨rfl, by decide, congrArg Outcome.err h1, congrArg Outcome.calls h1,
    congrArg Outcome.err h2, congrArg Outcome.calls h2, rfl,
    congrArg Outcome.err h3, congrArg Outcome.calls h3⟩

/-! ## C14: the status codes of the errors made by CreateVolume -/

/-- C14 fails on the code: when the agent reports CREATED with an empty
volume ID the error returned has status code Unknown, not Internal, and when
the ten polls are used up the error returned has status code Unknown, not
DeadlineExceeded, so the two cannot be told apart by code; the error for an
incompatible record, made by `status.Error`, does carry its code
AlreadyExists. -/
theorem createVolume_untyped_errors :
    status.Code (CreateVolume (Cluster.service "topolvm") "n1" "v1" 10 forgetfulCluster).err =
      codes.Unknown ∧
    status.Code (CreateVolume (Cluster.service "topolvm") "n1" "v1" 10 forgetfulCluster).err ≠
      codes.Internal ∧
    status.Code (CreateVolume (Cluster.service "topolvm") "n1" "v1" 10 emptyCluster).err =
      codes.Unknown ∧
    status.Code (CreateVolume (Cluster.service "topolvm") "n1" "v1" 10 emptyCluster).err ≠
      codes.DeadlineExceeded ∧
    status.Code (CreateVolume (Cluster.service "topolvm") "n2" "v1" 10 clusterV1).err =
      codes.AlreadyExists := by
  decide

/-- The errors CreateVolume makes itself, for every client: (1) when the
initial Get finds an incompatible record the error is the status error with
code AlreadyExists; (2) when a poll reads CREATED with an empty volume ID the
error is the plain error `VolumeID is empty`, which carries no status, so its
code reads as Unknown; (3) when all ten polls go on the error is the plain
error `timed out`, whose code reads as Unknown too. -/
theorem createVolume_own_errors {σ : Type} (s : LogicalVolumeService σ)
    (node name : String) (sizeGb : Int) (w : σ) :
    (∀ existingLV : LogicalVolume,
      (s.k8sClient.Get ⟨s.namespace_, name⟩ w).1 = Except.ok existingLV →
      (existingLV.Spec.NodeName ≠ node ∨ existingLV.Spec.Size.Value ≠ shl30 sizeGb) →
      (CreateVolume s node name sizeGb w).err =
        some (Error.statusError codes.AlreadyExists "LogicalVolume already exists") ∧
      status.Code (CreateVolume s node name sizeGb w).err = codes.AlreadyExists) ∧
    (∀ (pre : List Call) (w1 : σ) (k : Nat) (lv : LogicalVolume),
      createOrReuse s node name sizeGb w = Sum.inr (pre, w1) → k < 10 →
      (∀ j, j < k → pending (observed s name j w1) = true) →
      observed s name k w1 = Except.ok lv →
      lv.Status.Phase = "CREATED" → lv.Status.VolumeID = "" →
      (CreateVolume s node name sizeGb w).err =
        some (Error.errorString "VolumeID is empty") ∧
      status.Code (CreateVolume s node name sizeGb w).err = codes.Unknown ∧
      status.Message (CreateVolume s node name sizeGb w).err = "VolumeID is empty") ∧
    (∀ (pre : List Call) (w1 : σ),
      createOrReuse s node name sizeGb w = Sum.inr (pre, w1) →
      (∀ j, j < 10 → pending (observed s name j w1) = true) →
      (CreateVolume s node name sizeGb w).err = some (Error.errorString "timed out") ∧
      status.Code (CreateVolume s node name sizeGb w).err = codes.Unknown ∧
      status.Message (CreateVolume s node name sizeGb w).err = "timed out") ∧
    codes.AlreadyExists ≠ codes.Unknown ∧
    Error.errorString "VolumeID is empty" ≠ Error.errorString "timed out" ∧
    status.Code (some (Error.errorString "VolumeID is empty")) =
      status.Code (some (Error.errorString "timed out")) := by
  refine ⟨?_, ?_, ?_, by decide, by decide, rfl⟩
  · intro existingLV hget hinc
    rcases hg : s.k8sClient.Get ⟨s.namespace_, name⟩ w with ⟨r, wg⟩
    rw [hg] at hget
    simp only at hget
    subst hget
    have hrun : CreateVolume s node name sizeGb w =
        ⟨"", status.Error codes.AlreadyExists "LogicalVolume already exists",
          [Call.Get ⟨s.namespace_, name⟩], wg⟩ := by
      simp [CreateVolume, createOrReuse, hg, hinc]
    rw [hrun]
    exact ⟨rfl, rfl⟩
  · intro pre w1 k lv hpre hk hpend hobs hph hid
    have e10 : 10 = (9 - k) + 1 + k := by omega
    rw [createVolume_of_inr _ _ _ _ _ _ _ hpre, e10,
      pollLoop_created_empty s name k (9 - k) w1 lv hpend hobs hph hid]
    exact ⟨rfl, rfl, rfl⟩
  · intro pre w1 hpre hpend
    rw [createVolume_of_inr _ _ _ _ _ _ _ hpre, pollLoop_timeout s name 10 w1 hpend]
    exact ⟨rfl, rfl, rfl⟩

/-! ## C15: DeleteVolume -/

/-- C15 fails on the code: DeleteVolume panics with `implement me` for every
service, volume ID and world, so it never returns; in particular for the
volume ID `abc` on the empty cluster, where no record exists, it does not
return a nil error. -/
theorem deleteVolume_panics :
    DeleteVolume (Cluster.service "topolvm") "abc" emptyCluster =
      Ending.panicked "implement me" ∧
    (∀ r, DeleteVolume (Cluster.service "topolvm") "abc" emptyCluster ≠
      Ending.returned r) ∧
    ∀ (σ : Type) (s : LogicalVolumeService σ) (volumeID : String) (w : σ),
      DeleteVolume s volumeID w = Ending.panicked "implement me" := by
  refine ⟨rfl, ?_, fun _ _ _ _ => rfl⟩
  intro r h
  cases h

/-! ## C17: the work of a run is bounded -/

/-- The calls of the loop: some Get-and-Sleep pairs, at most as many as the
loop has iterations, followed by nothing when the iterations are used up, and
otherwise by a last Get, or by a last Get and the Delete of a record in phase
CREATE_FAILED. -/
theorem pollLoop_shape {σ : Type} (s : LogicalVolumeService σ) (name : String) :
    ∀ (n : Nat) (w : σ), ∃ (k : Nat) (last : List Call),
      (pollLoop s name n w).calls = pendingCalls ⟨s.namespace_, name⟩ k ++ last ∧
      ((k = n ∧ last = []) ∨
       (k < n ∧ last = [Call.Get ⟨s.namespace_, name⟩]) ∨
       (k < n ∧ ∃ lv : LogicalVolume,
          last = [Call.Get ⟨s.namespace_, name⟩, Call.Delete lv] ∧
          lv.Status.Phase = "CREATE_FAILED")) := by
  intro n
  induction n with
  | zero =>
    intro w
    exact ⟨0, [], rfl, Or.inl ⟨rfl, rfl⟩⟩
  | succ n ih =>
    intro w
    cases hr : (s.k8sClient.Get ⟨s.namespace_, name⟩ w).1 with
    | error e =>
      rw [pollLoop_step_error s name n w e hr]
      exact ⟨0, _, rfl, Or.inr (Or.inl ⟨Nat.succ_pos n, rfl⟩)⟩
    | ok lv =>
      by_cases h1 : lv.Status.Phase = "CREATED"
      · by_cases h2 : lv.Status.VolumeID = ""
        · rw [pollLoop_step_created_empty s name n w lv hr h1 h2]
          exact ⟨0, _, rfl, Or.inr (Or.inl ⟨Nat.succ_pos n, rfl⟩)⟩
        · rw [pollLoop_step_created s name n w lv hr h1 h2]
          exact ⟨0, _, rfl, Or.inr (Or.inl ⟨Nat.succ_pos n, rfl⟩)⟩
      · by_cases h3 : lv.Status.Phase = "CREATE_FAILED"
        · rw [pollLoop_step_failed s name n w lv hr h3]
          exact ⟨0, _, rfl, Or.inr (Or.inr ⟨Nat.succ_pos n, lv, rfl, h3⟩)⟩
        · have hp : pending (s.k8sClient.Get ⟨s.namespace_, name⟩ w).1 = true := by
            rw [hr]
            simp [pending, h1, h3]
          rw [pollLoop_step_pending s name n w hp, after_calls]
          rcases ih (s.timeSleep 1 (s.k8sClient.Get ⟨s.namespace_, name⟩ w).2)
            with ⟨k, last, hc, hcase⟩
          refine ⟨k + 1, last, ?_, ?_⟩
          · rw [hc]
            rfl
          · rcases hcase with ⟨hk, hl⟩ | ⟨hk, hl⟩ | ⟨hk, hl⟩
            · exact Or.inl ⟨by omega, hl⟩
            · exact Or.inr (Or.inl ⟨by omega, hl⟩)
            · exact Or.inr (Or.inr ⟨by omega, hl⟩)

theorem pendingCalls_count_sleep (key : ObjectKey) (k : Nat) :
    (pendingCalls key k).countP Call.isSleep = k := by
  induction k with
  | zero => rfl
  | succ k ih => simp [pendingCalls, Call.isSleep, ih]

theorem pendingCalls_count_delete (key : ObjectKey) (k : Nat) :
    (pendingCalls key k).countP Call.isDelete = 0 := by
  induction k with
  | zero => rfl
  | succ k ih => simp [pendingCalls, Call.isDelete, ih]

theorem pendingCalls_count_create (key : ObjectKey) (k : Nat) :
    (pendingCalls key k).countP Call.isCreate = 0 := by
  induction k with
  | zero => rfl
  | succ k ih => simp [pendingCalls, Call.isCreate, ih]

theorem pendingCalls_count_store (key : ObjectKey) (k : Nat) :
    (pendingCalls key k).countP (fun c => !c.isSleep) = k := by
  induction k with
  | zero => rfl
  | succ k ih =>
    have h1 : (!(Call.Get key).isSleep) = true := rfl
    have h2 : (!(Call.Sleep 1).isSleep) = false := rfl
    simp only [pendingCalls, List.countP_cons, h1, h2, ih]
    simp

theorem pendingCalls_sleep_one (key : ObjectKey) (k : Nat) :
    ∀ c ∈ pendingCalls key k, c.isSleep = true → c = Call.Sleep 1 := by
  induction k with
  | zero => intro c hc; exact absurd hc (List.not_mem_nil _)
  | succ k ih =>
    intro c hc hs
    simp only [pendingCalls, List.mem_cons] at hc
    rcases hc with hc | hc | hc
    · rw [hc] at hs
      simp [Call.isSleep] at hs
    · exact hc
    · exact ih c hc hs

/-- The loop with `n` iterations issues at most `n` Gets, `n` Sleeps, each of
one second, one Delete and no Create: at most `n + 1` calls to the store. -/
theorem pollLoop_counts {σ : Type} (s : LogicalVolumeService σ) (name : String)
    (n : Nat) (w : σ) :
    (pollLoop s name n w).calls.countP Call.isGet ≤ n ∧
    (pollLoop s name n w).calls.countP Call.isSleep ≤ n ∧
    (pollLoop s name n w).calls.countP Call.isDelete ≤ 1 ∧
    (pollLoop s name n w).calls.countP Call.isCreate = 0 ∧
    (pollLoop s name n w).calls.countP (fun c => !c.isSleep) ≤ n + 1 ∧
    (∀ c ∈ (pollLoop s name n w).calls, c.isSleep = true → c = Call.Sleep 1) := by
  rcases pollLoop_shape s name n w with ⟨k, last, hc, hcase⟩
  rw [hc]
  simp only [List.countP_append, pendingCalls_count_get, pendingCalls_count_sleep,
    pendingCalls_count_delete, pendingCalls_count_create, pendingCalls_count_store]
  have hsl : ∀ l : List Call, (∀ c ∈ l, c.isSleep = false) →
      ∀ c ∈ pendingCalls ⟨s.namespace_, name⟩ k ++ l, c.isSleep = true → c = Call.Sleep 1 := by
    intro l hl c hc hs
    rcases List.mem_append.mp hc with h | h
    · exact pendingCalls_sleep_one _ k c h hs
    · rw [hl c h] at hs
      cases hs
  rcases hcase with ⟨hk, hl⟩ | ⟨hk, hl⟩ | ⟨hk, lv, hl, _⟩
  · subst hl
    refine ⟨?_, ?_, ?_, ?_, ?_, hsl [] (by simp)⟩ <;> simp <;> omega
  · subst hl
    refine ⟨?_, ?_, ?_, ?_, ?_, hsl _ (by simp [Call.isSleep])⟩ <;>
      simp [Call.isGet, Call.isSleep, Call.isDelete, Call.isCreate] <;> omega
  · subst hl
    refine ⟨?_, ?_, ?_, ?_, ?_, hsl _ (by simp [Call.isSleep])⟩ <;>
      simp [Call.isGet, Call.isSleep, Call.isDelete, Call.isCreate] <;> omega

/-- What one iteration of the loop does with the record its Get read. -/
theorem pollLoop_step_ok {σ : Type} (s : LogicalVolumeService σ) (name : String)
    (n : Nat) (w : σ) (lv : LogicalVolume)
    (hobs : (s.k8sClient.Get ⟨s.namespace_, name⟩ w).1 = Except.ok lv) :
    pollLoop s name (n + 1) w =
      if lv.Status.Phase = "CREATED" then
        if lv.Status.VolumeID = "" then
          ⟨"", some (Error.errorString "VolumeID is empty"),
            [Call.Get ⟨s.namespace_, name⟩], (s.k8sClient.Get ⟨s.namespace_, name⟩ w).2⟩
        else
          ⟨lv.Status.VolumeID, none, [Call.Get ⟨s.namespace_, name⟩],
            (s.k8sClient.Get ⟨s.namespace_, name⟩ w).2⟩
      else if lv.Status.Phase = "CREATE_FAILED" then
        ⟨"", status.Error lv.Status.Code lv.Status.Message,
          [Call.Get ⟨s.namespace_, name⟩, Call.Delete lv],
          (s.k8sClient.Delete lv (s.k8sClient.Get ⟨s.namespace_, name⟩ w).2).2⟩
      else
        (pollLoop s name n (s.timeSleep 1 (s.k8sClient.Get ⟨s.namespace_, name⟩ w).2)).after
          [Call.Get ⟨s.namespace_, name⟩, Call.Sleep 1] := by
  by_cases h1 : lv.Status.Phase = "CREATED"
  · by_cases h2 : lv.Status.VolumeID = ""
    · rw [pollLoop_step_created_empty s name n w lv hobs h1 h2, if_pos h1, if_pos h2]
    · rw [pollLoop_step_created s name n w lv hobs h1 h2, if_pos h1, if_neg h2]
  · by_cases h3 : lv.Status.Phase = "CREATE_FAILED"
    · rw [pollLoop_step_failed s name n w lv hobs h3, if_neg h1, if_pos h3]
    · have hp : pending (s.k8sClient.Get ⟨s.namespace_, name⟩ w).1 = true := by
        rw [hobs]
        simp [pending, h1, h3]
      rw [pollLoop_step_pending s name n w hp, if_neg h1, if_neg h3]

/-- The calls of a run: those of the create-or-reuse step, the initial Get
alone or followed by the Create of the new record, and then those of the
loop, if the step hands over. -/
theorem createVolume_calls {σ : Type} (s : LogicalVolumeService σ) (node name : String)
    (sizeGb : Int) (w : σ) :
    ∃ (pre polls : List Call),
      (CreateVolume s node name sizeGb w).calls = pre ++ polls ∧
      (pre = [Call.Get ⟨s.namespace_, name⟩] ∨
       pre = [Call.Get ⟨s.namespace_, name⟩,
         Call.Create (newLogicalVolume s.namespace_ node name sizeGb)]) ∧
      (polls = [] ∨ ∃ w1, polls = (pollLoop s name 10 w1).calls) := by
  cases hc : createOrReuse s node name sizeGb w with
  | inr p =>
    rcases p with ⟨pre, w1⟩
    refine ⟨pre, (pollLoop s name 10 w1).calls, ?_,
      createOrReuse_inr _ _ _ _ _ _ _ hc, Or.inr ⟨w1, rfl⟩⟩
    rw [createVolume_of_inr _ _ _ _ _ _ _ hc]
    rfl
  | inl out =>
    have hrun : CreateVolume s node name sizeGb w = out := by
      simp [CreateVolume, hc]
    rw [hrun]
    rcases hg : s.k8sClient.Get ⟨s.namespace_, name⟩ w with ⟨r, wg⟩
    simp only [createOrReuse, hg] at hc
    cases r with
    | error e =>
      simp only at hc
      split at hc
      · cases hc
        exact ⟨_, [], (List.append_nil _).symm, Or.inl rfl, Or.inl rfl⟩
      · rcases hcc : s.k8sClient.Create (newLogicalVolume s.namespace_ node name sizeGb) wg
          with ⟨ce, wc⟩
        simp only [hcc] at hc
        cases ce with
        | some e2 =>
          cases hc
          exact ⟨_, [], (List.append_nil _).symm, Or.inr rfl, Or.inl rfl⟩
        | none => cases hc
    | ok lv2 =>
      simp only at hc
      split at hc
      · cases hc
        exact ⟨_, [], (List.append_nil _).symm, Or.inl rfl, Or.inl rfl⟩
      · cases hc

/-- C17: for every client and every world, the run of CreateVolume is a
finite list of calls: the initial Get, alone or followed by one Create, and
then the polls, which hold at most 10 Gets, at most 10 Sleeps, at most one
Delete and no Create; in all at most one Create, one Delete, 10 Sleeps, each
of one second, and 13 calls to the store; and an iteration of the loop whose
Get read a record acts on the phase of that record. -/
theorem createVolume_bounded {σ : Type} (s : LogicalVolumeService σ) (node name : String)
    (sizeGb : Int) (w : σ) :
    (∃ (pre polls : List Call),
      (CreateVolume s node name sizeGb w).calls = pre ++ polls ∧
      (pre = [Call.Get ⟨s.namespace_, name⟩] ∨
       pre = [Call.Get ⟨s.namespace_, name⟩,
         Call.Create (newLogicalVolume s.namespace_ node name sizeGb)]) ∧
      polls.countP Call.isGet ≤ 10 ∧ polls.countP Call.isSleep ≤ 10 ∧
      polls.countP Call.isDelete ≤ 1 ∧ polls.countP Call.isCreate = 0) ∧
    (CreateVolume s node name sizeGb w).calls.countP Call.isGet ≤ 11 ∧
    (CreateVolume s node name sizeGb w).calls.countP Call.isCreate ≤ 1 ∧
    (CreateVolume s node name sizeGb w).calls.countP Call.isDelete ≤ 1 ∧
    (CreateVolume s node name sizeGb w).calls.countP Call.isSleep ≤ 10 ∧
    (CreateVolume s node name sizeGb w).calls.countP (fun c => !c.isSleep) ≤ 13 ∧
    (∀ c ∈ (CreateVolume s node name sizeGb w).calls, c.isSleep = true → c = Call.Sleep 1) ∧
    (∀ (n : Nat) (w1 : σ) (lv : LogicalVolume),
      (s.k8sClient.Get ⟨s.namespace_, name⟩ w1).1 = Except.ok lv →
      pollLoop s name (n + 1) w1 =
        if lv.Status.Phase = "CREATED" then
          if lv.Status.VolumeID = "" then
            ⟨"", some (Error.errorString "VolumeID is empty"),
              [Call.Get ⟨s.namespace_, name⟩], (s.k8sClient.Get ⟨s.namespace_, name⟩ w1).2⟩
          else
            ⟨lv.Status.VolumeID, none, [Call.Get ⟨s.namespace_, name⟩],
              (s.k8sClient.Get ⟨s.namespace_, name⟩ w1).2⟩
        else if lv.Status.Phase = "CREATE_FAILED" then
          ⟨"", status.Error lv.Status.Code lv.Status.Message,
            [Call.Get ⟨s.namespace_, name⟩, Call.Delete lv],
            (s.k8sClient.Delete lv (s.k8sClient.Get ⟨s.namespace_, name⟩ w1).2).2⟩
        else
          (pollLoop s name n
            (s.timeSleep 1 (s.k8sClient.Get ⟨s.namespace_, name⟩ w1).2)).after
            [Call.Get ⟨s.namespace_, name⟩, Call.Sleep 1]) := by
  rcases createVolume_calls s node name sizeGb w with ⟨pre, polls, hc, hpre, hpolls⟩
  have hb : polls.countP Call.isGet ≤ 10 ∧ polls.countP Call.isSleep ≤ 10 ∧
      polls.countP Call.isDelete ≤ 1 ∧ polls.countP Call.isCreate = 0 ∧
      polls.countP (fun c => !c.isSleep) ≤ 11 ∧
      (∀ c ∈ polls, c.isSleep = true → c = Call.Sleep 1) := by
    rcases hpolls with h | ⟨w1, h⟩
    · subst h
      refine ⟨by simp, by simp, by simp, by simp, by simp, ?_⟩
      intro c hc
      exact absurd hc (List.not_mem_nil _)
    · subst h
      exact pollLoop_counts s name 10 w1
  have hp : pre.countP Call.isGet = 1 ∧ pre.countP Call.isSleep = 0 ∧
      pre.countP Call.isDelete = 0 ∧ pre.countP Call.isCreate ≤ 1 ∧
      pre.countP (fun c => !c.isSleep) ≤ 2 ∧ (∀ c ∈ pre, c.isSleep = false) := by
    rcases hpre with h | h <;>
      · subst h
        simp [Call.isGet, Call.isSleep, Call.isDelete, Call.isCreate]
  rcases hb with ⟨b1, b2, b3, b4, b5, b6⟩
  rcases hp with ⟨p1, p2, p3, p4, p5, p6⟩
  refine ⟨⟨pre, polls, hc, hpre, b1, b2, b3, b4⟩, ?_, ?_, ?_, ?_, ?_, ?_, ?_⟩
  · rw [hc, List.countP_append]; omega
  · rw [hc, List.countP_append]; omega
  · rw [hc, List.countP_append]; omega
  · rw [hc, List.countP_append]; omega
  · rw [hc, List.countP_append]; omega
  · intro c hmem hs
    rw [hc] at hmem
    rcases List.mem_append.mp hmem with h | h
    · rw [p6 c h] at hs
      cases hs
    · exact b6 c h hs
  · intro n w1 lv hobs
    exact pollLoop_step_ok s name n w1 lv hobs

/-- C17 on the cluster whose agent writes nothing: the run issues the full
number of calls, 12 to the store and 10 Sleeps. -/
theorem createVolume_bounded_witness :
    (CreateVolume (Cluster.service "topolvm") "n1" "v1" 10 emptyCluster).calls.countP
      (fun c => !c.isSleep) = 12 ∧
    (CreateVolume (Cluster.service "topolvm") "n1" "v1" 10 emptyCluster).calls.countP
      Call.isSleep = 10 ∧
    (CreateVolume (Cluster.service "topolvm") "n1" "v1" 10 emptyCluster).calls.countP
      (fun c => !c.isSleep) ≤ 13 :=
  ⟨by decide, by decide,
    (createVolume_bounded (Cluster.service "topolvm") "n1" "v1" 10 emptyCluster).2.2.2.2.2.1⟩

/-! ## C18: every other phase is pending -/

/-- C18: for every client, (1) an iteration of the loop whose Get read a
record in any phase other than CREATED and CREATE_FAILED issues no Delete and
does not return: it sleeps one second and goes on with the next iteration;
(2) when all ten polls read such phases, CreateVolume ends with the error
`timed out` after ten Get-and-Sleep pairs; (3) when poll number `k < 10`
reads a record in phase CREATED or CREATE_FAILED and every earlier poll read
another phase, the result is fixed by that record: its volume ID with a nil
error, the error `VolumeID is empty` if the ID is empty, or, for
CREATE_FAILED, the status error of its code and message. -/
theorem pollLoop_other_phase_pending {σ : Type} (s : LogicalVolumeService σ)
    (node name : String) (sizeGb : Int) (w : σ) :
    (∀ (n : Nat) (w1 : σ) (lv : LogicalVolume),
      (s.k8sClient.Get ⟨s.namespace_, name⟩ w1).1 = Except.ok lv →
      lv.Status.Phase ≠ "CREATED" → lv.Status.Phase ≠ "CREATE_FAILED" →
      pollLoop s name (n + 1) w1 =
        (pollLoop s name n
          (s.timeSleep 1 (s.k8sClient.Get ⟨s.namespace_, name⟩ w1).2)).after
          [Call.Get ⟨s.namespace_, name⟩, Call.Sleep 1]) ∧
    (∀ (pre : List Call) (w1 : σ),
      createOrReuse s node name sizeGb w = Sum.inr (pre, w1) →
      (∀ j, j < 10 → pending (observed s name j w1) = true) →
      CreateVolume s node name sizeGb w =
        ⟨"", some (Error.errorString "timed out"),
          pre ++ pendingCalls ⟨s.namespace_, name⟩ 10, pollWorld s name 10 w1⟩) ∧
    (∀ (pre : List Call) (w1 : σ) (k : Nat) (lv : LogicalVolume),
      createOrReuse s node name sizeGb w = Sum.inr (pre, w1) → k < 10 →
      (∀ j, j < k → pending (observed s name j w1) = true) →
      observed s name k w1 = Except.ok lv →
      (lv.Status.Phase = "CREATED" → lv.Status.VolumeID ≠ "" →
        (CreateVolume s node name sizeGb w).volumeID = lv.Status.VolumeID ∧
        (CreateVolume s node name sizeGb w).err = none) ∧
      (lv.Status.Phase = "CREATED" → lv.Status.VolumeID = "" →
        (CreateVolume s node name sizeGb w).volumeID = "" ∧
        (CreateVolume s node name sizeGb w).err =
          some (Error.errorString "VolumeID is empty")) ∧
      (lv.Status.Phase = "CREATE_FAILED" →
        (CreateVolume s node name sizeGb w).volumeID = "" ∧
        (CreateVolume s node name sizeGb w).err =
          status.Error lv.Status.Code lv.Status.Message)) := by
  refine ⟨?_, ?_, ?_⟩
  · intro n w1 lv hobs h1 h3
    have hp : pending (s.k8sClient.Get ⟨s.namespace_, name⟩ w1).1 = true := by
      rw [hobs]
      simp [pending, h1, h3]
    exact pollLoop_step_pending s name n w1 hp
  · intro pre w1 hpre hpend
    rw [createVolume_of_inr _ _ _ _ _ _ _ hpre, pollLoop_timeout s name 10 w1 hpend]
    rfl
  · intro pre w1 k lv hpre hk hpend hobs
    have e10 : 10 = (9 - k) + 1 + k := by omega
    have hrun := createVolume_of_inr _ _ _ _ _ _ _ hpre
    refine ⟨?_, ?_, ?_⟩
    · intro hph hid
      rw [hrun, e10, pollLoop_created s name k (9 - k) w1 lv hpend hobs hph hid]
      exact ⟨rfl, rfl⟩
    · intro hph hid
      rw [hrun, e10, pollLoop_created_empty s name k (9 - k) w1 lv hpend hobs hph hid]
      exact ⟨rfl, rfl⟩
    · intro hph
      rw [hrun, e10, pollLoop_failed s name k (9 - k) w1 lv hpend hobs hph]
      exact ⟨rfl, rfl⟩

/-- C18 on a cluster whose agent writes first an empty phase and then the
phase `created` in lower case: every poll goes on and the call times out. -/
theorem pollLoop_other_phase_pending_witness :
    createOrReuse (Cluster.service "topolvm") "n1" "v1" 10 oddCluster =
      Sum.inr ([Call.Get ⟨"topolvm", "v1"⟩,
        Call.Create (newLogicalVolume "topolvm" "n1" "v1" 10)], oddStart) ∧
    (∀ j, j < 10 →
      pending (observed (Cluster.service "topolvm") "v1" j oddStart) = true) ∧
    inPhase "" (observed (Cluster.service "topolvm") "v1" 0 oddStart) = true ∧
    inPhase "created" (observed (Cluster.service "topolvm") "v1" 9 oddStart) = true ∧
    (CreateVolume (Cluster.service "topolvm") "n1" "v1" 10 oddCluster).err =
      some (Error.errorString "timed out") ∧
    (CreateVolume (Cluster.service "topolvm") "n1" "v1" 10 oddCluster).calls =
      [Call.Get ⟨"topolvm", "v1"⟩, Call.Create (newLogicalVolume "topolvm" "n1" "v1" 10)] ++
        pendingCalls ⟨"topolvm", "v1"⟩ 10 :=
  have hpend : ∀ j, j < 10 →
      pending (observed (Cluster.service "topolvm") "v1" j oddStart) = true := by decide
  have h := (pollLoop_other_phase_pending (Cluster.service "topolvm") "n1" "v1" 10
    oddCluster).2.1
    [Call.Get ⟨"topolvm", "v1"⟩, Call.Create (newLogicalVolume "topolvm" "n1" "v1" 10)]
    oddStart rfl hpend
  ⟨rfl, hpend, by decide, by decide, congrArg Outcome.err h, congrArg Outcome.calls h⟩

/-! ## C16: what a run leaves of the store -/

theorem Cluster.plus_nil (w : Cluster) : w.plus [] = w := by
  simp [Cluster.plus]

theorem Cluster.settle_plus (env : Cluster) (extra : List LogicalVolume) :
    (env.plus extra).settle =
      env.settle.plus (extra.map fun lv => { lv with Status := env.agent env.now lv }) := by
  simp [Cluster.settle, Cluster.plus]

theorem Cluster.sleep_plus (ns : String) (seconds : Nat) (env : Cluster)
    (extra : List LogicalVolume) :
    (Cluster.service ns).timeSleep seconds (env.plus extra) =
      ((Cluster.service ns).timeSleep seconds env).plus extra := rfl

theorem Cluster.desiredOf_rewrite (extra : List LogicalVolume)
    (f : LogicalVolume → LogicalVolumeStatus) :
    Cluster.desiredOf (extra.map fun lv => { lv with Status := f lv }) =
      Cluster.desiredOf extra := by
  simp only [Cluster.desiredOf, List.map_map]
  rfl

theorem Cluster.passAll_cons (c : Call) (calls : List Call) (w : Cluster) :
    Cluster.passAll (c :: calls) w = Cluster.passAll calls (w.pass c) := rfl

theorem Cluster.passAll_append (l1 l2 : List Call) (w : Cluster) :
    Cluster.passAll (l1 ++ l2) w = Cluster.passAll l2 (Cluster.passAll l1 w) := by
  simp [Cluster.passAll, List.foldl_append]

/-- On the cluster the loop deletes only a record it read under the name in
phase CREATE_FAILED, and its other calls are Gets of the name and Sleeps of
one second. -/
theorem Cluster.pollLoop_calls (ns name : String) :
    ∀ (n : Nat) (w : Cluster), ∀ c ∈ (pollLoop (Cluster.service ns) name n w).calls,
      c = Call.Get ⟨ns, name⟩ ∨ c = Call.Sleep 1 ∨
      ∃ lv : LogicalVolume, c = Call.Delete lv ∧ lv.key = ⟨ns, name⟩ ∧
        lv.Status.Phase = "CREATE_FAILED" := by
  intro n
  induction n with
  | zero =>
    intro w c hc
    exact absurd hc (List.not_mem_nil _)
  | succ n ih =>
    intro w c
    cases hr : ((Cluster.service ns).k8sClient.Get
        ⟨(Cluster.service ns).namespace_, name⟩ w).1 with
    | error e =>
      rw [pollLoop_step_error _ name n w e hr]
      intro hc
      simp only [List.mem_singleton] at hc
      exact Or.inl hc
    | ok lv =>
      by_cases h1 : lv.Status.Phase = "CREATED"
      · by_cases h2 : lv.Status.VolumeID = ""
        · rw [pollLoop_step_created_empty _ name n w lv hr h1 h2]
          intro hc
          simp only [List.mem_singleton] at hc
          exact Or.inl hc
        · rw [pollLoop_step_created _ name n w lv hr h1 h2]
          intro hc
          simp only [List.mem_singleton] at hc
          exact Or.inl hc
      · by_cases h3 : lv.Status.Phase = "CREATE_FAILED"
        · rw [pollLoop_step_failed _ name n w lv hr h3]
          intro hc
          simp only [List.mem_cons, List.mem_singleton, List.mem_nil_iff, or_false] at hc
          rcases hc with hc | hc
          · exact Or.inl hc
          · have hkey : lv.key = ⟨ns, name⟩ :=
              Cluster.lookup_key _ _ _ (Cluster.get_ok_lookup ⟨ns, name⟩ w lv hr)
            exact Or.inr (Or.inr ⟨lv, hc, hkey, h3⟩)
        · have hp : pending ((Cluster.service ns).k8sClient.Get
              ⟨(Cluster.service ns).namespace_, name⟩ w).1 = true := by
            rw [hr]
            simp [pending, h1, h3]
          rw [pollLoop_step_pending _ name n w hp, after_calls]
          intro hc
          simp only [List.cons_append, List.nil_append, List.mem_cons] at hc
          rcases hc with hc | hc | hc
          · exact Or.inl hc
          · exact Or.inr (Or.inl hc)
          · exact ih _ c hc

/-- What a `Delete` served by the cluster leaves of a world. -/
theorem Cluster.delete_world (lv : LogicalVolume) (w : Cluster) :
    (Cluster.Delete lv w).2 = w.settle ∨
    (Cluster.Delete lv w).2 =
      { w.settle with objects := Cluster.without lv.key w.settle.objects } := by
  unfold Cluster.Delete
  cases w.fault w.now with
  | some e => exact Or.inl rfl
  | none =>
    cases Cluster.lookup lv.key w.settle.objects with
    | none => exact Or.inl rfl
    | some lv2 => exact Or.inr rfl

/-- The loop on the cluster against the cluster left alone: started with
some records `extra` at the end of the store, it leaves the world that the
passing of its calls alone would leave, with those records, rewritten by the
agent only in their status, still at the end; or, if it issued a Delete, that
world without the records under the name. -/
theorem Cluster.pollLoop_replay (ns name : String) :
    ∀ (n : Nat) (env : Cluster) (extra : List LogicalVolume),
      ∃ extra2 : List LogicalVolume,
        Cluster.desiredOf extra2 = Cluster.desiredOf extra ∧
        ((pollLoop (Cluster.service ns) name n (env.plus extra)).world =
            (Cluster.passAll
              (pollLoop (Cluster.service ns) name n (env.plus extra)).calls env).plus extra2 ∨
          ((∃ lv, Call.Delete lv ∈
              (pollLoop (Cluster.service ns) name n (env.plus extra)).calls) ∧
            (pollLoop (Cluster.service ns) name n (env.plus extra)).world =
              { Cluster.passAll
                  (pollLoop (Cluster.service ns) name n (env.plus extra)).calls env with
                objects := Cluster.without ⟨ns, name⟩
                  ((Cluster.passAll
                    (pollLoop (Cluster.service ns) name n (env.plus extra)).calls
                      env).objects ++ extra2) })) := by
  intro n
  induction n with
  | zero =>
    intro env extra
    exact ⟨extra, rfl, Or.inl rfl⟩
  | succ n ih =>
    intro env extra
    have hw : ((Cluster.service ns).k8sClient.Get
        ⟨(Cluster.service ns).namespace_, name⟩ (env.plus extra)).2 =
        env.settle.plus (extra.map fun lv => { lv with Status := env.agent env.now lv }) := by
      rw [← Cluster.settle_plus]
      exact Cluster.get_world ⟨ns, name⟩ (env.plus extra)
    have hd := Cluster.desiredOf_rewrite extra (env.agent env.now)
    cases hr : ((Cluster.service ns).k8sClient.Get
        ⟨(Cluster.service ns).namespace_, name⟩ (env.plus extra)).1 with
    | error e =>
      rw [pollLoop_step_error _ name n _ e hr]
      exact ⟨_, hd, Or.inl hw⟩
    | ok lv =>
      by_cases h1 : lv.Status.Phase = "CREATED"
      · by_cases h2 : lv.Status.VolumeID = ""
        · rw [pollLoop_step_created_empty _ name n _ lv hr h1 h2]
          exact ⟨_, hd, Or.inl hw⟩
        · rw [pollLoop_step_created _ name n _ lv hr h1 h2]
          exact ⟨_, hd, Or.inl hw⟩
      · by_cases h3 : lv.Status.Phase = "CREATE_FAILED"
        · rw [pollLoop_step_failed _ name n _ lv hr h3]
          have hkey : lv.key = ⟨ns, name⟩ :=
            Cluster.lookup_key _ _ _ (Cluster.get_ok_lookup ⟨ns, name⟩ _ lv hr)
          refine ⟨(extra.map fun lv => { lv with Status := env.agent env.now lv }).map
            (fun lv => { lv with Status := env.settle.agent env.settle.now lv }), ?_, ?_⟩
          · rw [Cluster.desiredOf_rewrite, hd]
          · show (Cluster.Delete lv ((Cluster.service ns).k8sClient.Get
                ⟨(Cluster.service ns).namespace_, name⟩ (env.plus extra)).2).2 = _ ∨ _ ∧
              (Cluster.Delete lv ((Cluster.service ns).k8sClient.Get
                ⟨(Cluster.service ns).namespace_, name⟩ (env.plus extra)).2).2 = _
            rw [hw]
            rcases Cluster.delete_world lv (env.settle.plus
              (extra.map fun lv => { lv with Status := env.agent env.now lv })) with h | h
            · left
              rw [h, Cluster.settle_plus]
              rfl
            · right
              refine ⟨⟨lv, by simp⟩, ?_⟩
              rw [h, hkey, Cluster.settle_plus]
              rfl
        · have hp : pending ((Cluster.service ns).k8sClient.Get
              ⟨(Cluster.service ns).namespace_, name⟩ (env.plus extra)).1 = true := by
            rw [hr]
            simp [pending, h1, h3]
          rw [pollLoop_step_pending _ name n _ hp, hw, Cluster.sleep_plus]
          rcases ih ((Cluster.service ns).timeSleep 1 env.settle)
            (extra.map fun lv => { lv with Status := env.agent env.now lv })
            with ⟨extra2, hd2, hcase⟩
          refine ⟨extra2, hd2.trans hd, ?_⟩
          rw [after_world, after_calls]
          have hpass : ∀ l : List Call,
              Cluster.passAll ([Call.Get ⟨(Cluster.service ns).namespace_, name⟩,
                Call.Sleep 1] ++ l) env =
              Cluster.passAll l ((Cluster.service ns).timeSleep 1 env.settle) := by
            intro l
            rfl
          rw [hpass]
          rcases hcase with h | ⟨⟨lv2, hmem⟩, h⟩
          · exact Or.inl h
          · exact Or.inr ⟨⟨lv2, List.mem_append_right _ hmem⟩, h⟩

/-- What a `Create` served by the cluster leaves of a world. -/
theorem Cluster.create_world (lv : LogicalVolume) (w : Cluster) :
    ((Cluster.Create lv w).1 ≠ none ∧ (Cluster.Create lv w).2 = w.settle) ∨
    ((Cluster.Create lv w).1 = none ∧ (Cluster.Create lv w).2 = w.settle.plus [lv]) := by
  unfold Cluster.Create
  cases w.fault w.now with
  | some e => exact Or.inl ⟨by simp, rfl⟩
  | none =>
    cases Cluster.lookup lv.key w.settle.objects with
    | some lv2 => exact Or.inl ⟨by simp, rfl⟩
    | none => exact Or.inr ⟨rfl, rfl⟩

/-- The create-or-reuse step on the cluster: it ends the run after the Get,
or after the Get and a Create that failed, leaving the world as the passing
of those calls alone would; or it hands over after the Get; or it hands over
after the Get and the Create, with the new record at the end of the store. -/
theorem Cluster.createOrReuse_world (ns node name : String) (sizeGb : Int) (w : Cluster) :
    (∃ out0, createOrReuse (Cluster.service ns) node name sizeGb w = Sum.inl out0 ∧
      ((out0.calls = [Call.Get ⟨ns, name⟩] ∧ out0.world = w.settle) ∨
       (out0.calls = [Call.Get ⟨ns, name⟩,
          Call.Create (newLogicalVolume ns node name sizeGb)] ∧
        out0.world = w.settle.settle))) ∨
    createOrReuse (Cluster.service ns) node name sizeGb w =
      Sum.inr ([Call.Get ⟨ns, name⟩], w.settle) ∨
    createOrReuse (Cluster.service ns) node name sizeGb w =
      Sum.inr ([Call.Get ⟨ns, name⟩, Call.Create (newLogicalVolume ns node name sizeGb)],
        w.settle.settle.plus [newLogicalVolume ns node name sizeGb]) := by
  have hns : (Cluster.service ns).namespace_ = ns := rfl
  have hcl : (Cluster.service ns).k8sClient = Cluster.client := rfl
  rcases hg : Cluster.Get ⟨ns, name⟩ w with ⟨r, wg⟩
  have hwg : wg = w.settle := by
    have := Cluster.get_world ⟨ns, name⟩ w
    rw [hg] at this
    exact this
  subst hwg
  simp only [createOrReuse, hns, hcl, Cluster.client, hg]
  cases r with
  | error e =>
    simp only
    split
    · exact Or.inl ⟨_, rfl, Or.inl ⟨rfl, rfl⟩⟩
    · rcases hc : Cluster.Create (newLogicalVolume ns node name sizeGb) w.settle
        with ⟨ce, wc⟩
      rcases Cluster.create_world (newLogicalVolume ns node name sizeGb) w.settle
        with ⟨h1, h2⟩ | ⟨h1, h2⟩
      · rw [hc] at h1 h2
        simp only at h1 h2
        subst h2
        cases ce with
        | none => exact absurd rfl h1
        | some e2 => exact Or.inl ⟨_, rfl, Or.inr ⟨rfl, rfl⟩⟩
      · rw [hc] at h1 h2
        simp only at h1 h2
        subst h1
        subst h2
        exact Or.inr (Or.inr rfl)
  | ok lv =>
    simp only
    split
    · exact Or.inl ⟨_, rfl, Or.inl ⟨rfl, rfl⟩⟩
    · exact Or.inr (Or.inl rfl)

theorem Cluster.without_append (key : ObjectKey) (l1 l2 : List LogicalVolume) :
    Cluster.without key (l1 ++ l2) = Cluster.without key l1 ++ Cluster.without key l2 := by
  simp [Cluster.without]

theorem Cluster.without_without (key : ObjectKey) (l : List LogicalVolume) :
    Cluster.without key (Cluster.without key l) = Cluster.without key l := by
  simp [Cluster.without, List.filter_filter]

/-- With an agent that writes nothing, the passing of calls leaves the store
as it is. -/
theorem Cluster.passAll_idle (calls : List Call) :
    ∀ w : Cluster, (∀ t lv, w.agent t lv = lv.Status) →
      (Cluster.passAll calls w).objects = w.objects := by
  induction calls with
  | nil => intro w _; rfl
  | cons c calls ih =>
    intro w h
    rw [Cluster.passAll_cons]
    have hobj : (w.pass c).objects = w.objects := by
      cases c with
      | Sleep seconds => rfl
      | Get key => exact Cluster.settle_idle w (fun lv _ => h w.now lv)
      | Create obj => exact Cluster.settle_idle w (fun lv _ => h w.now lv)
      | Delete obj => exact Cluster.settle_idle w (fun lv _ => h w.now lv)
    have hag : (w.pass c).agent = w.agent := by
      cases c <;> rfl
    rw [ih (w.pass c) (by rw [hag]; exact h), hobj]

/-- A record that differs from the new record at most in its status is
stored under the name. -/
theorem Cluster.without_extra (ns node name : String) (sizeGb : Int)
    (extra : List LogicalVolume)
    (h : extra = [] ∨ ∃ lv2, extra = [lv2] ∧
      lv2.desired = (newLogicalVolume ns node name sizeGb).desired) :
    Cluster.without ⟨ns, name⟩ extra = [] := by
  rcases h with h | ⟨lv2, h, hd⟩
  · rw [h]
    rfl
  · rw [h]
    have hm : lv2.ObjectMeta = (newLogicalVolume ns node name sizeGb).ObjectMeta := by
      simp only [LogicalVolume.desired, Prod.mk.injEq] at hd
      exact hd.2.1
    have hk : lv2.key = ⟨ns, name⟩ := by
      simp only [LogicalVolume.key, hm]
      rfl
    simp [Cluster.without, hk]

/-- The run of CreateVolume on the cluster against the cluster left alone. -/
theorem Cluster.createVolume_replay (ns node name : String) (sizeGb : Int) (w : Cluster) :
    ∃ extra : List LogicalVolume,
      (extra = [] ∨ ∃ lv2, extra = [lv2] ∧
        lv2.desired = (newLogicalVolume ns node name sizeGb).desired ∧
        Call.Create (newLogicalVolume ns node name sizeGb) ∈
          (CreateVolume (Cluster.service ns) node name sizeGb w).calls) ∧
      ((CreateVolume (Cluster.service ns) node name sizeGb w).world =
          (Cluster.passAll (CreateVolume (Cluster.service ns) node name sizeGb w).calls
            w).plus extra ∨
        ((∃ lv, Call.Delete lv ∈ (CreateVolume (Cluster.service ns) node name sizeGb w).calls) ∧
          (CreateVolume (Cluster.service ns) node name sizeGb w).world =
            { Cluster.passAll (CreateVolume (Cluster.service ns) node name sizeGb w).calls w with
              objects := Cluster.without ⟨ns, name⟩
                ((Cluster.passAll (CreateVolume (Cluster.service ns) node name sizeGb w).calls
                  w).objects ++ extra) })) := by
  rcases Cluster.createOrReuse_world ns node name sizeGb w with ⟨out0, h, hcase⟩ | h | h
  · have hrun : CreateVolume (Cluster.service ns) node name sizeGb w = out0 := by
      simp [CreateVolume, h]
    rw [hrun]
    refine ⟨[], Or.inl rfl, Or.inl ?_⟩
    rw [Cluster.plus_nil]
    rcases hcase with ⟨hc, hw⟩ | ⟨hc, hw⟩
    · rw [hc, hw]
      rfl
    · rw [hc, hw]
      rfl
  · rw [createVolume_of_inr _ _ _ _ _ _ _ h, after_world, after_calls]
    have hr := Cluster.pollLoop_replay ns name 10 w.settle []
    rw [Cluster.plus_nil] at hr
    rcases hr with ⟨extra2, hd, hcase⟩
    have he : extra2 = [] := by
      simpa [Cluster.desiredOf] using hd
    subst he
    refine ⟨[], Or.inl rfl, ?_⟩
    have hpass : ∀ l : List Call, Cluster.passAll ([Call.Get ⟨ns, name⟩] ++ l) w =
        Cluster.passAll l w.settle := fun l => rfl
    rw [hpass]
    rcases hcase with hc | ⟨⟨lv, hmem⟩, hc⟩
    · exact Or.inl hc
    · exact Or.inr ⟨⟨lv, List.mem_append_right _ hmem⟩, hc⟩
  · rw [createVolume_of_inr _ _ _ _ _ _ _ h, after_world, after_calls]
    rcases Cluster.pollLoop_replay ns name 10 w.settle.settle
      [newLogicalVolume ns node name sizeGb] with ⟨extra2, hd, hcase⟩
    have he : ∃ lv2, extra2 = [lv2] ∧
        lv2.desired = (newLogicalVolume ns node name sizeGb).desired := by
      cases extra2 with
      | nil => simp [Cluster.desiredOf] at hd
      | cons a t =>
        cases t with
        | nil =>
          refine ⟨a, rfl, ?_⟩
          simpa [Cluster.desiredOf] using hd
        | cons b t2 => simp [Cluster.desiredOf] at hd
    rcases he with ⟨lv2, he, hd2⟩
    refine ⟨extra2, Or.inr ⟨lv2, he, hd2, by simp⟩, ?_⟩
    have hpass : ∀ l : List Call, Cluster.passAll ([Call.Get ⟨ns, name⟩,
        Call.Create (newLogicalVolume ns node name sizeGb)] ++ l) w =
        Cluster.passAll l w.settle.settle := fun l => rfl
    rw [hpass]
    rcases hcase with hc | ⟨⟨lv, hmem⟩, hc⟩
    · exact Or.inl hc
    · exact Or.inr ⟨⟨lv, List.mem_append_right _ hmem⟩, hc⟩

/-- C16: let `out` be a run of CreateVolume on the cluster `w` and `env` the
cluster that the mere passing of its calls would leave, the agent writing as
it does and no call touching the store.  Every call of the run is a Get of
the name, the Create of the new record, a Sleep of one second, or the Delete
of a record read under the name in phase CREATE_FAILED.  The world left is
`env` with at most the new record, whose status the agent may have written,
added at the end of the store; or, only if the run issued a Delete, `env`
without the records under the name.  So the records under every other name
are those of `env`, record for record; if the run issued no Delete every
record of `env` is in the store left; and if the agent writes nothing the
records of `env` are those of `w`. -/
theorem createVolume_frame (ns node name : String) (sizeGb : Int) (w : Cluster)
    (out : Outcome Cluster) (env : Cluster)
    (hout : out = CreateVolume (Cluster.service ns) node name sizeGb w)
    (henv : env = Cluster.passAll out.calls w) :
    (∀ c ∈ out.calls,
      c = Call.Get ⟨ns, name⟩ ∨ c = Call.Create (newLogicalVolume ns node name sizeGb) ∨
      c = Call.Sleep 1 ∨
      ∃ lv : LogicalVolume, c = Call.Delete lv ∧ lv.key = ⟨ns, name⟩ ∧
        lv.Status.Phase = "CREATE_FAILED") ∧
    (∃ extra : List LogicalVolume,
      (extra = [] ∨ ∃ lv2, extra = [lv2] ∧
        lv2.desired = (newLogicalVolume ns node name sizeGb).desired ∧
        Call.Create (newLogicalVolume ns node name sizeGb) ∈ out.calls) ∧
      (out.world = env.plus extra ∨
        ((∃ lv, Call.Delete lv ∈ out.calls) ∧
          out.world = { env with
            objects := Cluster.without ⟨ns, name⟩ (env.objects ++ extra) }))) ∧
    Cluster.without ⟨ns, name⟩ out.world.objects = Cluster.without ⟨ns, name⟩ env.objects ∧
    ((∀ lv, Call.Delete lv ∉ out.calls) → ∀ lv ∈ env.objects, lv ∈ out.world.objects) ∧
    ((∀ t lv, w.agent t lv = lv.Status) → env.objects = w.objects) := by
  subst henv
  subst hout
  have hF := Cluster.createVolume_replay ns node name sizeGb w
  refine ⟨?_, hF, ?_, ?_, ?_⟩
  · intro c hc
    rcases createVolume_calls (Cluster.service ns) node name sizeGb w
      with ⟨pre, polls, hcalls, hpre, hpolls⟩
    rw [hcalls] at hc
    rcases List.mem_append.mp hc with h | h
    · rcases hpre with hp | hp
      · rw [hp] at h
        simp only [List.mem_singleton] at h
        exact Or.inl h
      · rw [hp] at h
        simp only [List.mem_cons, List.mem_singleton, List.mem_nil_iff, or_false] at h
        rcases h with h | h
        · exact Or.inl h
        · exact Or.inr (Or.inl h)
    · rcases hpolls with hp | ⟨w1, hp⟩
      · rw [hp] at h
        exact absurd h (List.not_mem_nil _)
      · rw [hp] at h
        rcases Cluster.pollLoop_calls ns name 10 w1 c h with h1 | h1 | h1
        · exact Or.inl h1
        · exact Or.inr (Or.inr (Or.inl h1))
        · exact Or.inr (Or.inr (Or.inr h1))
  · rcases hF with ⟨extra, hex, hw | ⟨_, hw⟩⟩
    · have hx : Cluster.without ⟨ns, name⟩ extra = [] := by
        apply Cluster.without_extra ns node name sizeGb
        rcases hex with h | ⟨lv2, h1, h2, _⟩
        · exact Or.inl h
        · exact Or.inr ⟨lv2, h1, h2⟩
      rw [hw]
      show Cluster.without ⟨ns, name⟩ (_ ++ extra) = _
      rw [Cluster.without_append, hx, List.append_nil]
    · have hx : Cluster.without ⟨ns, name⟩ extra = [] := by
        apply Cluster.without_extra ns node name sizeGb
        rcases hex with h | ⟨lv2, h1, h2, _⟩
        · exact Or.inl h
        · exact Or.inr ⟨lv2, h1, h2⟩
      rw [hw]
      show Cluster.without ⟨ns, name⟩ (Cluster.without ⟨ns, name⟩ (_ ++ extra)) = _
      rw [Cluster.without_without, Cluster.without_append, hx, List.append_nil]
  · intro hnd lv hlv
    rcases hF with ⟨extra, _, hw | ⟨⟨lvd, hmem⟩, _⟩⟩
    · rw [hw]
      exact List.mem_append_left _ hlv
    · exact absurd hmem (hnd lvd)
  · intro hidle
    exact Cluster.passAll_idle _ w hidle

/-- C16 on the cluster holding `v1` with an idle agent: a request for a new
volume `v2` leaves `v1` as it is and adds the record `v2`. -/
theorem createVolume_frame_witness :
    (CreateVolume (Cluster.service "topolvm") "n1" "v2" 5 clusterV1).world.objects =
      [newLogicalVolume "topolvm" "n1" "v1" 10, newLogicalVolume "topolvm" "n1" "v2" 5] ∧
    Cluster.without ⟨"topolvm", "v2"⟩
      (CreateVolume (Cluster.service "topolvm") "n1" "v2" 5 clusterV1).world.objects =
      Cluster.without ⟨"topolvm", "v2"⟩
        (Cluster.passAll
          (CreateVolume (Cluster.service "topolvm") "n1" "v2" 5 clusterV1).calls
          clusterV1).objects ∧
    (Cluster.passAll (CreateVolume (Cluster.service "topolvm") "n1" "v2" 5 clusterV1).calls
      clusterV1).objects = clusterV1.objects :=
  have h := createVolume_frame "topolvm" "n1" "v2" 5 clusterV1
    (CreateVolume (Cluster.service "topolvm") "n1" "v2" 5 clusterV1)
    (Cluster.passAll (CreateVolume (Cluster.service "topolvm") "n1" "v2" 5 clusterV1).calls
      clusterV1) rfl rfl
  ⟨by decide, h.2.2.1, h.2.2.2.2 (fun _ _ => rfl)⟩

end K8s
